import Mathlib

/-!
Verification development for the pptx-generator service.

This file gives a shallow embedding, in Lean 4, of the template-analysis and
slide-generation engine of the repository (files `app/schemas.py`,
`app/services/template_analyzer.py`, `app/services/pptx_generator.py`) and
proves properties of that embedding.

Modelling conventions:
* Python dicts become association lists `List (String × _)` in insertion order;
  `dict.get` becomes `pyGet` (first matching key).
* Python exceptions become `Except String _`; a raised `ValueError` is an
  `Except.error` carrying the message.
* Python machine floats are modelled as exact fractions `PyFloat` (an integer
  numerator/denominator pair, denominator positive by construction); binary
  floating-point rounding artifacts are outside the model.
* Python strings are modelled as Lean `String`; `str.lower` is modelled for
  the ASCII range (`pyLower`), which agrees with Python on all inputs used in
  the development.
* The external document model library (python-pptx) is embedded as explicit
  state: presentations, masters, layouts, slides, placeholders, text frames.
  Its operations (`add_slide`, `TextFrame.clear`, `add_paragraph`, `add_run`,
  `shapes.add_*`) are modelled as pure state transformers.
* The filesystem check done by image insertion (`Path.exists`) is abstracted
  as an explicit `fs : String → Bool` parameter.
-/

namespace Pptx

/-! ## Generic helpers: character/string primitives, Python semantics -/

/-- ASCII lower-casing of one character (models `str.lower` on the ASCII
range; inputs in this development are ASCII). -/
def lowerChar (c : Char) : Char :=
  if 65 ≤ c.toNat ∧ c.toNat ≤ 90 then Char.ofNat (c.toNat + 32) else c

/-- Models Python `s.lower()` (ASCII range). -/
def pyLower (s : String) : String := ⟨s.data.map lowerChar⟩

/-- `startsWithChars needle hay`: does `hay` begin with `needle`? -/
def startsWithChars : List Char → List Char → Bool
  | [], _ => true
  | _ :: _, [] => false
  | n :: ns, h :: hs => n == h && startsWithChars ns hs

/-- `containsChars needle hay`: is `needle` a contiguous substring of `hay`?
Models Python `needle in hay` on strings (via `.data`). -/
def containsChars : List Char → List Char → Bool
  | n, [] => n.isEmpty
  | n, h :: hs => startsWithChars n (h :: hs) || containsChars n hs

/-- Models Python `needle in hay` for strings. -/
def pyIn (needle hay : String) : Bool := containsChars needle.data hay.data

/-- Models Python `s.startswith(pre)` / the `str.startswith` used by
`_resolve_placeholder` via kernel-reducible list recursion. -/
def pyStartsWith (s pre : String) : Bool := startsWithChars pre.data s.data

/-- Models Python string slicing `s[n:]` (by character count). -/
def pyDrop (s : String) (n : Nat) : String := ⟨s.data.drop n⟩

/-- Decimal digit value of a character, if it is a digit. -/
def digitVal? (c : Char) : Option Nat :=
  if 48 ≤ c.toNat ∧ c.toNat ≤ 57 then some (c.toNat - 48) else none

/-- Digits (with single `_` separators allowed between digits) after the
first digit, for `int(...)` parsing. -/
def pyIntRest (acc : Nat) : List Char → Option Nat
  | [] => some acc
  | c :: cs =>
    if c.toNat == 95 then
      match cs with
      | [] => none
      | c2 :: cs2 =>
        match digitVal? c2 with
        | some d => pyIntRest (acc * 10 + d) cs2
        | none => none
    else
      match digitVal? c with
      | some d => pyIntRest (acc * 10 + d) cs
      | none => none

/-- Unsigned decimal literal body: must start with a digit. -/
def pyIntCore : List Char → Option Nat
  | [] => none
  | c :: cs =>
    match digitVal? c with
    | some d => pyIntRest d cs
    | none => none

/-- ASCII whitespace, as stripped by Python `str.strip()`. -/
def isSpaceChar (c : Char) : Bool := (9 ≤ c.toNat ∧ c.toNat ≤ 13) ∨ c.toNat == 32

/-- Strip leading and trailing whitespace (models `str.strip()`, ASCII). -/
def stripChars (cs : List Char) : List Char :=
  ((cs.dropWhile isSpaceChar).reverse.dropWhile isSpaceChar).reverse

/-- Models Python `int(s)` for base-10 string conversion: optional
whitespace, optional sign, digits with `_` separators; `none` models the
`ValueError` raised on any other input. -/
def pyInt (s : String) : Option Int :=
  match stripChars s.data with
  | [] => none
  | c :: cs =>
    if c.toNat == 45 then (pyIntCore cs).map (fun n => -(n : Int))
    else if c.toNat == 43 then (pyIntCore cs).map (fun n => (n : Int))
    else (pyIntCore (c :: cs)).map (fun n => (n : Int))

/-- The message of the `ValueError` raised by Python `int(s)` (the literal
quotes of the CPython message are elided). -/
def intValueErrorMsg (s : String) : String :=
  "invalid literal for int() with base 10: " ++ s

/-- Association-list lookup; models `dict[k]` / `dict.get(k)` on a dict in
insertion order. -/
def pyGet {α : Type} (kvs : List (String × α)) (k : String) : Option α :=
  (kvs.find? (fun kv => kv.1 == k)).map (·.2)

/-- A Python float, modelled as an exact fraction (denominator intended
positive). Arithmetic on these values is spelled out on the integer
components so that all definitions evaluate inside the kernel. -/
structure PyFloat where
  num : Int
  den : Int
deriving DecidableEq

/-- Embed an integer as a `PyFloat` (pydantic coerces `int` to `float`). -/
def PyFloat.ofInt (n : Int) : PyFloat := ⟨n, 1⟩

/-- Truthiness of a float: `0.0` is falsy. -/
def PyFloat.isZero (f : PyFloat) : Bool := f.num == 0

/-- `DecidableEq` for `Except` results, used to state concrete evaluations. -/
instance {ε α : Type} [DecidableEq ε] [DecidableEq α] : DecidableEq (Except ε α) := fun x y =>
  match x, y with
  | .ok a, .ok b =>
    if h : a = b then .isTrue (by rw [h]) else .isFalse (by intro hc; cases hc; exact h rfl)
  | .error a, .error b =>
    if h : a = b then .isTrue (by rw [h]) else .isFalse (by intro hc; cases hc; exact h rfl)
  | .ok _, .error _ => .isFalse (by intro hc; cases hc)
  | .error _, .ok _ => .isFalse (by intro hc; cases hc)

/-! ## Data model (`app/schemas.py`) -/

/-- `PlaceholderType` string enum from `schemas.py`. -/
inductive PlaceholderType
  | TITLE | CENTER_TITLE | SUBTITLE | BODY | OBJECT | PICTURE
  | CHART | TABLE | FOOTER | DATE | SLIDE_NUMBER
deriving DecidableEq

/-- Models the enum-call `PlaceholderType(type_str)`: matches a member by its
string value, `none` modelling the raised `ValueError`. -/
def PlaceholderType.ofValue : String → Option PlaceholderType
  | "TITLE" => some .TITLE
  | "CENTER_TITLE" => some .CENTER_TITLE
  | "SUBTITLE" => some .SUBTITLE
  | "BODY" => some .BODY
  | "OBJECT" => some .OBJECT
  | "PICTURE" => some .PICTURE
  | "CHART" => some .CHART
  | "TABLE" => some .TABLE
  | "FOOTER" => some .FOOTER
  | "DATE" => some .DATE
  | "SLIDE_NUMBER" => some .SLIDE_NUMBER
  | _ => none

/-- `ContentType` string enum. -/
inductive ContentType
  | TEXT | BULLETS | IMAGE | TABLE | CHART
deriving DecidableEq

def ContentType.ofValue : String → Option ContentType
  | "text" => some .TEXT
  | "bullets" => some .BULLETS
  | "image" => some .IMAGE
  | "table" => some .TABLE
  | "chart" => some .CHART
  | _ => none

/-- `ChartType` string enum. -/
inductive ChartType
  | BAR | COLUMN | LINE | PIE | DOUGHNUT | AREA
deriving DecidableEq

def ChartType.ofValue : String → Option ChartType
  | "bar" => some .BAR
  | "column" => some .COLUMN
  | "line" => some .LINE
  | "pie" => some .PIE
  | "doughnut" => some .DOUGHNUT
  | "area" => some .AREA
  | _ => none

/-- `TextStyle` pydantic model. -/
structure TextStyle where
  bold : Bool := false
  italic : Bool := false
  underline : Bool := false
  font_size : Option PyFloat := none
  font_name : Option String := none
  color : Option String := none
  theme_color : Option String := none
deriving DecidableEq

/-- `ParagraphContent` pydantic model (`level` is validated `0 ≤ _ ≤ 8` at
construction and therefore stored as `Nat`). -/
structure ParagraphContent where
  text : String
  style : Option TextStyle := none
  bullet : Bool := false
  level : Nat := 0
  alignment : Option String := none
deriving DecidableEq

/-- `TextContent` pydantic model. -/
structure TextContent where
  type : ContentType := .TEXT
  paragraphs : List ParagraphContent
deriving DecidableEq

/-- An element of `BulletContent.items`: `str | ParagraphContent`. -/
inductive BulletItem
  | str (s : String)
  | para (p : ParagraphContent)
deriving DecidableEq

/-- `BulletContent` pydantic model. -/
structure BulletContent where
  type : ContentType := .BULLETS
  items : List BulletItem
  style : Option TextStyle := none
deriving DecidableEq

/-- `ImageContent` pydantic model. -/
structure ImageContent where
  type : ContentType := .IMAGE
  source : String
  alt_text : Option String := none
deriving DecidableEq

/-- `TableCell` pydantic model. -/
structure TableCell where
  text : String
  style : Option TextStyle := none
  colspan : Nat := 1
  rowspan : Nat := 1
deriving DecidableEq

/-- An element of a table row: `str | TableCell`. -/
inductive TableEntry
  | str (s : String)
  | cell (c : TableCell)
deriving DecidableEq

/-- `TableStyle` pydantic model. -/
structure TableStyle where
  header_bg_color : Option String := none
  header_text_color : Option String := none
  alternate_row_color : Option String := none
  border_color : Option String := none
deriving DecidableEq

/-- `TableContent` pydantic model. -/
structure TableContent where
  type : ContentType := .TABLE
  headers : Option (List String) := none
  rows : List (List TableEntry)
  style : Option TableStyle := none
deriving DecidableEq

/-- `ChartDataSeries` pydantic model. -/
structure ChartDataSeries where
  name : String
  values : List PyFloat
  color : Option String := none
deriving DecidableEq

/-- `ChartContent` pydantic model. -/
structure ChartContent where
  type : ContentType := .CHART
  chart_type : ChartType
  title : Option String := none
  categories : List String
  series : List ChartDataSeries
  show_legend : Bool := true
deriving DecidableEq

/-- `PlaceholderMeta` pydantic model. The geometry fields hold the analyzer
output `round(emu / 914400, 2)` (inches, two decimals), represented exactly
as an integer count of hundredths of an inch. -/
structure PlaceholderMeta where
  idx : Int
  type : Option PlaceholderType := none
  name : String
  left : Int
  top : Int
  width : Int
  height : Int
  has_text_frame : Bool := true
deriving DecidableEq

/-- `LayoutMeta` pydantic model. -/
structure LayoutMeta where
  index : Nat
  name : String
  description : Option String := none
  usage_hint : Option String := none
  placeholders : List PlaceholderMeta := []
deriving DecidableEq

/-- `TemplateCustomConfig` pydantic model; `layout_aliases` is a dict in
insertion order. -/
structure TemplateCustomConfig where
  default_font : Option String := none
  title_font : Option String := none
  accent_color : Option String := none
  layout_aliases : List (String × Int) := []
deriving DecidableEq

/-- `TemplateMeta` pydantic model. -/
structure TemplateMeta where
  id : String
  name : String
  file_name : String
  description : Option String := none
  slide_width : Int
  slide_height : Int
  layouts : List LayoutMeta := []
  custom_config : Option TemplateCustomConfig := none
deriving DecidableEq

/-! ### Shape content schemas

`ShapeContent`, `TextBoxContent`, `ConnectorContent`, `ShapeStyle` and
`ShapeType` are imported by `pptx_generator.py` from `app.schemas` but are
absent from the repository sources; their fields are reconstructed from the
spec and from how `_add_shape` / `_add_textbox` / `_add_connector` access
them. -/

/-- Modelled from the spec: the `ShapeType` string enum is missing from the
sources; its members are those used by `SHAPE_TYPE_MAP` in
`pptx_generator.py`, with string values assumed to be the lower-cased member
names. -/
inductive ShapeType
  | RECTANGLE | ROUNDED_RECTANGLE | OVAL | TRIANGLE | RIGHT_TRIANGLE
  | DIAMOND | PENTAGON | HEXAGON | ARROW_RIGHT | ARROW_LEFT | ARROW_UP
  | ARROW_DOWN | CHEVRON | STAR_5_POINT | STAR_6_POINT | CALLOUT_RECTANGULAR
  | CALLOUT_ROUNDED_RECTANGULAR | CALLOUT_OVAL | CALLOUT_CLOUD
  | CURVED_RIGHT_ARROW | CURVED_LEFT_ARROW | CURVED_UP_ARROW
  | CURVED_DOWN_ARROW | BLOCK_ARC | DONUT | HEART | LIGHTNING_BOLT | SUN
  | MOON | CLOUD | FLOWCHART_PROCESS | FLOWCHART_DECISION
  | FLOWCHART_TERMINATOR | FLOWCHART_DATA | FLOWCHART_CONNECTOR
deriving DecidableEq

/-- Modelled from the spec: string values of `ShapeType` members. -/
def ShapeType.ofValue : String → Option ShapeType
  | "rectangle" => some .RECTANGLE
  | "rounded_rectangle" => some .ROUNDED_RECTANGLE
  | "oval" => some .OVAL
  | "triangle" => some .TRIANGLE
  | "right_triangle" => some .RIGHT_TRIANGLE
  | "diamond" => some .DIAMOND
  | "pentagon" => some .PENTAGON
  | "hexagon" => some .HEXAGON
  | "arrow_right" => some .ARROW_RIGHT
  | "arrow_left" => some .ARROW_LEFT
  | "arrow_up" => some .ARROW_UP
  | "arrow_down" => some .ARROW_DOWN
  | "chevron" => some .CHEVRON
  | "star_5_point" => some .STAR_5_POINT
  | "star_6_point" => some .STAR_6_POINT
  | "callout_rectangular" => some .CALLOUT_RECTANGULAR
  | "callout_rounded_rectangular" => some .CALLOUT_ROUNDED_RECTANGULAR
  | "callout_oval" => some .CALLOUT_OVAL
  | "callout_cloud" => some .CALLOUT_CLOUD
  | "curved_right_arrow" => some .CURVED_RIGHT_ARROW
  | "curved_left_arrow" => some .CURVED_LEFT_ARROW
  | "curved_up_arrow" => some .CURVED_UP_ARROW
  | "curved_down_arrow" => some .CURVED_DOWN_ARROW
  | "block_arc" => some .BLOCK_ARC
  | "donut" => some .DONUT
  | "heart" => some .HEART
  | "lightning_bolt" => some .LIGHTNING_BOLT
  | "sun" => some .SUN
  | "moon" => some .MOON
  | "cloud" => some .CLOUD
  | "flowchart_process" => some .FLOWCHART_PROCESS
  | "flowchart_decision" => some .FLOWCHART_DECISION
  | "flowchart_terminator" => some .FLOWCHART_TERMINATOR
  | "flowchart_data" => some .FLOWCHART_DATA
  | "flowchart_connector" => some .FLOWCHART_CONNECTOR
  | _ => none

/-- Modelled from the spec: `ShapeStyle`, fields per `_apply_shape_style`. -/
structure ShapeStyle where
  fill_color : Option String := none
  line_color : Option String := none
  line_width : Option PyFloat := none
  line_dash : Option String := none
deriving DecidableEq

/-- Modelled from the spec: `ShapeContent`, fields per `_add_shape`; geometry
in inches (floats), required. -/
structure ShapeContent where
  shape_type : ShapeType
  left : PyFloat
  top : PyFloat
  width : PyFloat
  height : PyFloat
  style : Option ShapeStyle := none
  rotation : Option PyFloat := none
  text : Option String := none
  text_style : Option TextStyle := none
deriving DecidableEq

/-- Modelled from the spec: `TextBoxContent`, fields per `_add_textbox`
(`text` defaults to the empty string). -/
structure TextBoxContent where
  left : PyFloat
  top : PyFloat
  width : PyFloat
  height : PyFloat
  text : String := ""
  paragraphs : List ParagraphContent := []
  style : Option TextStyle := none
  fill_color : Option String := none
  line_color : Option String := none
deriving DecidableEq

/-- Modelled from the spec: `ConnectorContent`, fields per `_add_connector`. -/
structure ConnectorContent where
  start_x : PyFloat
  start_y : PyFloat
  end_x : PyFloat
  end_y : PyFloat
  line_color : Option String := none
  line_width : Option PyFloat := none
deriving DecidableEq

/-- A normalized shape-list item: `ShapeContent | TextBoxContent |
ConnectorContent`. -/
inductive ShapeItem
  | shape (s : ShapeContent)
  | textbox (t : TextBoxContent)
  | connector (c : ConnectorContent)
deriving DecidableEq

/-- A normalized content-map value: `SlideContent | str | list[str]`. -/
inductive NormContent
  | str (s : String)
  | strList (xs : List String)
  | text (t : TextContent)
  | bullets (b : BulletContent)
  | table (t : TableContent)
  | chart (c : ChartContent)
  | image (i : ImageContent)
deriving DecidableEq

/-- `SlideDefinition` pydantic model (contents dict in insertion order). -/
structure SlideDefinition where
  layout_name : Option String := none
  layout_index : Option Int := none
  contents : List (String × NormContent) := []
  shapes : List ShapeItem := []
  speaker_notes : Option String := none
deriving DecidableEq

/-! ## External document model (python-pptx), embedded as explicit state -/

/-- Native placeholder type tags (`PP_PLACEHOLDER`); tags not named by the
sources are represented by `other`. -/
inductive PPPlaceholder
  | TITLE | CENTER_TITLE | SUBTITLE | BODY | OBJECT | CHART | TABLE
  | PICTURE | FOOTER | DATE | SLIDE_NUMBER
  | other (tag : Nat)
deriving DecidableEq

/-- Native autoshape kinds (`MSO_SHAPE`), restricted to those named by
`SHAPE_TYPE_MAP`. -/
inductive MsoShape
  | RECTANGLE | ROUNDED_RECTANGLE | OVAL | ISOSCELES_TRIANGLE
  | RIGHT_TRIANGLE | DIAMOND | PENTAGON | HEXAGON | RIGHT_ARROW | LEFT_ARROW
  | UP_ARROW | DOWN_ARROW | CHEVRON | STAR_5_POINT | STAR_6_POINT
  | RECTANGULAR_CALLOUT | ROUNDED_RECTANGULAR_CALLOUT | OVAL_CALLOUT
  | CLOUD_CALLOUT | CURVED_RIGHT_ARROW | CURVED_LEFT_ARROW | CURVED_UP_ARROW
  | CURVED_DOWN_ARROW | BLOCK_ARC | DONUT | HEART | LIGHTNING_BOLT | SUN
  | MOON | CLOUD | FLOWCHART_PROCESS | FLOWCHART_DECISION
  | FLOWCHART_TERMINATOR | FLOWCHART_DATA | FLOWCHART_CONNECTOR
deriving DecidableEq

/-- Native chart kinds (`XL_CHART_TYPE`), restricted to those named by
`CHART_TYPE_MAP`. -/
inductive XlChartType
  | BAR_CLUSTERED | COLUMN_CLUSTERED | LINE | PIE | DOUGHNUT | AREA
deriving DecidableEq

/-- Native dash styles (`MSO_LINE_DASH_STYLE`) named by `LINE_DASH_MAP`. -/
inductive MsoLineDash
  | SOLID | DASH | ROUND_DOT | DASH_DOT
deriving DecidableEq

/-- Native theme colors (`MSO_THEME_COLOR`) named by `THEME_COLOR_MAP`. -/
inductive MsoThemeColor
  | DARK_1 | LIGHT_1 | DARK_2 | LIGHT_2
  | ACCENT_1 | ACCENT_2 | ACCENT_3 | ACCENT_4 | ACCENT_5 | ACCENT_6
deriving DecidableEq

/-- Paragraph alignments (`PP_ALIGN`) named by `ALIGNMENT_MAP`. -/
inductive PPAlign
  | LEFT | CENTER | RIGHT | JUSTIFY
deriving DecidableEq

/-- An `RGBColor`. -/
structure Rgb where
  r : Nat
  g : Nat
  b : Nat
deriving DecidableEq

/-- A run font color: either an explicit RGB or a theme color. -/
inductive FontColor
  | rgb (c : Rgb)
  | theme (t : MsoThemeColor)
deriving DecidableEq

/-- A text run; `none` font properties model unset (inherited) values. -/
structure Run where
  text : String := ""
  bold : Option Bool := none
  italic : Option Bool := none
  underline : Option Bool := none
  size : Option PyFloat := none
  font_name : Option String := none
  color : Option FontColor := none
deriving DecidableEq

/-- A paragraph of a text frame. -/
structure Paragraph where
  runs : List Run := []
  level : Nat := 0
  alignment : Option PPAlign := none
deriving DecidableEq

/-- A text frame: a list of paragraphs (always nonempty in python-pptx). -/
structure TextFrame where
  paragraphs : List Paragraph := [{}]
deriving DecidableEq

/-- A fresh empty paragraph. -/
def freshParagraph : Paragraph := {}

/-- Models `TextFrame.clear()`: all content removed, one empty paragraph
remains. -/
def TextFrame.clear (_tf : TextFrame) : TextFrame := ⟨[freshParagraph]⟩

/-- Native `placeholder_format` of a placeholder shape. -/
structure PlaceholderFormat where
  idx : Int
  type : PPPlaceholder
deriving DecidableEq

/-- A native placeholder shape (on a layout or a slide). `has_tf_attr`
models `hasattr(shape, "text_frame")`; `has_text_frame` models the
`has_text_frame` property; geometry is in EMU. -/
structure Placeholder where
  name : String
  placeholder_format : PlaceholderFormat
  left : Int := 0
  top : Int := 0
  width : Int := 0
  height : Int := 0
  has_tf_attr : Bool := true
  has_text_frame : Bool := true
  text_frame : TextFrame := {}
deriving DecidableEq

/-- A slide layout. -/
structure SlideLayout where
  name : String
  placeholders : List Placeholder := []
deriving DecidableEq

/-- A slide master: an ordered list of layouts. -/
structure Master where
  slide_layouts : List SlideLayout := []
deriving DecidableEq

/-- State of a table added by `slide.shapes.add_table(...)`; `cells` is a
`rows × cols` grid of cell texts with optional solid fill. -/
structure TableCellState where
  text : String := ""
  fill : Option Rgb := none
deriving DecidableEq

structure TableState where
  rows_count : Nat
  cols_count : Nat
  left : Int
  top : Int
  width : Int
  height : Int
  cells : List (List TableCellState)
deriving DecidableEq

/-- State of a chart added by `slide.shapes.add_chart(...)`. -/
structure ChartState where
  chart_type : XlChartType
  left : Int
  top : Int
  width : Int
  height : Int
  categories : List String
  series : List (String × List PyFloat)
  title : Option String := none
  has_legend : Bool := false
deriving DecidableEq

/-- State of an autoshape added by `slide.shapes.add_shape(...)` after the
generator has mutated it. -/
structure AutoShapeState where
  shape_type : MsoShape
  left : Int
  top : Int
  width : Int
  height : Int
  fill : Option Rgb := none
  line_color : Option Rgb := none
  line_width : Option PyFloat := none
  line_dash : Option MsoLineDash := none
  rotation : Option PyFloat := none
  text_frame : TextFrame := {}
deriving DecidableEq

/-- State of a textbox added by `slide.shapes.add_textbox(...)`. -/
structure TextBoxState where
  left : Int
  top : Int
  width : Int
  height : Int
  text_frame : TextFrame := {}
  fill : Option Rgb := none
  line_color : Option Rgb := none
deriving DecidableEq

/-- State of a straight connector added by `slide.shapes.add_connector`. -/
structure ConnectorState where
  start_x : Int
  start_y : Int
  end_x : Int
  end_y : Int
  line_color : Option Rgb := none
  line_width : Option PyFloat := none
deriving DecidableEq

/-- A non-placeholder shape present on a generated slide. -/
inductive PlacedShape
  | table (t : TableState)
  | chart (c : ChartState)
  | picture (path : String) (left top width height : Int)
  | auto (a : AutoShapeState)
  | textbox (t : TextBoxState)
  | connector (c : ConnectorState)
deriving DecidableEq

/-- A slide. -/
structure Slide where
  placeholders : List Placeholder := []
  shapes : List PlacedShape := []
  notes : Option String := none
deriving DecidableEq

/-- An opened presentation. -/
structure Presentation where
  slide_masters : List Master := []
  slides : List Slide := []
  slide_width : Int := 0
  slide_height : Int := 0
deriving DecidableEq

/-- Models `master.slide_layouts` flattening done by python-pptx for
`prs.slide_layouts`: the first master's layouts. -/
def Presentation.slide_layouts (prs : Presentation) : List SlideLayout :=
  match prs.slide_masters with
  | [] => []
  | m :: _ => m.slide_layouts

/-- Models `prs.slides.add_slide(layout)`: python-pptx clones the layout's
placeholders onto the new slide, excluding date, footer and slide-number
placeholders (`iter_cloneable_placeholders`), with empty text bodies. -/
def slideFromLayout (layout : SlideLayout) : Slide :=
  { placeholders :=
      (layout.placeholders.filter (fun ph =>
        !(ph.placeholder_format.type == .DATE
          || ph.placeholder_format.type == .FOOTER
          || ph.placeholder_format.type == .SLIDE_NUMBER))).map
        (fun ph => { ph with text_frame := {} }),
    shapes := [],
    notes := none }

/-! ## Generator constants (`pptx_generator.py`, module level) -/

/-- `ALIGNMENT_MAP` (dict lookup as partial map). -/
def ALIGNMENT_MAP : String → Option PPAlign
  | "LEFT" => some .LEFT
  | "CENTER" => some .CENTER
  | "RIGHT" => some .RIGHT
  | "JUSTIFY" => some .JUSTIFY
  | _ => none

/-- `CHART_TYPE_MAP` (total over `ChartType`; the `.get` default
`COLUMN_CLUSTERED` in `_insert_chart` is therefore never used). -/
def CHART_TYPE_MAP : ChartType → XlChartType
  | .BAR => .BAR_CLUSTERED
  | .COLUMN => .COLUMN_CLUSTERED
  | .LINE => .LINE
  | .PIE => .PIE
  | .DOUGHNUT => .DOUGHNUT
  | .AREA => .AREA

/-- `THEME_COLOR_MAP`. -/
def THEME_COLOR_MAP : String → Option MsoThemeColor
  | "DARK_1" => some .DARK_1
  | "LIGHT_1" => some .LIGHT_1
  | "DARK_2" => some .DARK_2
  | "LIGHT_2" => some .LIGHT_2
  | "ACCENT_1" => some .ACCENT_1
  | "ACCENT_2" => some .ACCENT_2
  | "ACCENT_3" => some .ACCENT_3
  | "ACCENT_4" => some .ACCENT_4
  | "ACCENT_5" => some .ACCENT_5
  | "ACCENT_6" => some .ACCENT_6
  | _ => none

/-- `SHAPE_TYPE_MAP` (total over `ShapeType`; the `.get` default `RECTANGLE`
in `_add_shape` is therefore never used). -/
def SHAPE_TYPE_MAP : ShapeType → MsoShape
  | .RECTANGLE => .RECTANGLE
  | .ROUNDED_RECTANGLE => .ROUNDED_RECTANGLE
  | .OVAL => .OVAL
  | .TRIANGLE => .ISOSCELES_TRIANGLE
  | .RIGHT_TRIANGLE => .RIGHT_TRIANGLE
  | .DIAMOND => .DIAMOND
  | .PENTAGON => .PENTAGON
  | .HEXAGON => .HEXAGON
  | .ARROW_RIGHT => .RIGHT_ARROW
  | .ARROW_LEFT => .LEFT_ARROW
  | .ARROW_UP => .UP_ARROW
  | .ARROW_DOWN => .DOWN_ARROW
  | .CHEVRON => .CHEVRON
  | .STAR_5_POINT => .STAR_5_POINT
  | .STAR_6_POINT => .STAR_6_POINT
  | .CALLOUT_RECTANGULAR => .RECTANGULAR_CALLOUT
  | .CALLOUT_ROUNDED_RECTANGULAR => .ROUNDED_RECTANGULAR_CALLOUT
  | .CALLOUT_OVAL => .OVAL_CALLOUT
  | .CALLOUT_CLOUD => .CLOUD_CALLOUT
  | .CURVED_RIGHT_ARROW => .CURVED_RIGHT_ARROW
  | .CURVED_LEFT_ARROW => .CURVED_LEFT_ARROW
  | .CURVED_UP_ARROW => .CURVED_UP_ARROW
  | .CURVED_DOWN_ARROW => .CURVED_DOWN_ARROW
  | .BLOCK_ARC => .BLOCK_ARC
  | .DONUT => .DONUT
  | .HEART => .HEART
  | .LIGHTNING_BOLT => .LIGHTNING_BOLT
  | .SUN => .SUN
  | .MOON => .MOON
  | .CLOUD => .CLOUD
  | .FLOWCHART_PROCESS => .FLOWCHART_PROCESS
  | .FLOWCHART_DECISION => .FLOWCHART_DECISION
  | .FLOWCHART_TERMINATOR => .FLOWCHART_TERMINATOR
  | .FLOWCHART_DATA => .FLOWCHART_DATA
  | .FLOWCHART_CONNECTOR => .FLOWCHART_CONNECTOR

/-- `LINE_DASH_MAP`. -/
def LINE_DASH_MAP : String → Option MsoLineDash
  | "solid" => some .SOLID
  | "dash" => some .DASH
  | "dot" => some .ROUND_DOT
  | "dash_dot" => some .DASH_DOT
  | _ => none

/-! ## Generator helper functions -/

/-- Hexadecimal digit value of a character, if any. -/
def hexDigitVal? (c : Char) : Option Nat :=
  if 48 ≤ c.toNat ∧ c.toNat ≤ 57 then some (c.toNat - 48)
  else if 97 ≤ c.toNat ∧ c.toNat ≤ 102 then some (c.toNat - 87)
  else if 65 ≤ c.toNat ∧ c.toNat ≤ 70 then some (c.toNat - 55)
  else none

/-- Models `int(s, 16)` on a two-character slice of the color string (the
whitespace/sign/underscore tolerance of CPython `int` is irrelevant here and
not modelled); `none` models the raised `ValueError`. -/
def hexPair? (a b : Char) : Option Nat := do
  let x ← hexDigitVal? a
  let y ← hexDigitVal? b
  some (x * 16 + y)

/-- `_parse_rgb_color`: strip leading `#`, require 6 characters, parse three
hex pairs; errors model the raised `ValueError`s. -/
def _parse_rgb_color (color_str : String) : Except String Rgb :=
  let cs := color_str.data.dropWhile (fun c => c.toNat == 35)
  if cs.length != 6 then .error ("Invalid color format: " ++ (⟨cs⟩ : String))
  else
    match cs with
    | c0 :: c1 :: c2 :: c3 :: c4 :: c5 :: _ =>
      match hexPair? c0 c1, hexPair? c2 c3, hexPair? c4 c5 with
      | some r, some g, some b => .ok ⟨r, g, b⟩
      | _, _, _ =>
        .error ("invalid literal for int() with base 16: " ++ (⟨cs⟩ : String))
    | _ => .error ("Invalid color format: " ++ (⟨cs⟩ : String))

/-- `_apply_text_style`: sequentially set the run font properties that the
style makes truthy (`False`/`None`/`0`/empty values leave the run
untouched); an invalid `color` string raises. -/
def _apply_text_style (run : Run) (style : Option TextStyle) : Except String Run := do
  match style with
  | none => .ok run
  | some style =>
    let run := if style.bold then { run with bold := some true } else run
    let run := if style.italic then { run with italic := some true } else run
    let run := if style.underline then { run with underline := some true } else run
    let run :=
      match style.font_size with
      | some fs => if fs.isZero then run else { run with size := some fs }
      | none => run
    let run :=
      match style.font_name with
      | some fn => if fn == "" then run else { run with font_name := some fn }
      | none => run
    match style.color with
    | some c =>
      if c == "" then
        styleThemeColor run style
      else do
        let rgb ← _parse_rgb_color c
        .ok { run with color := some (.rgb rgb) }
    | none => styleThemeColor run style
where
  /-- The `elif style.theme_color ... in THEME_COLOR_MAP` branch. -/
  styleThemeColor (run : Run) (style : TextStyle) : Except String Run :=
    match style.theme_color with
    | some tc =>
      if tc == "" then .ok run
      else
        match THEME_COLOR_MAP tc with
        | some t => .ok { run with color := some (.theme t) }
        | none => .ok run
    | none => .ok run

/-- The `type_map` restriction used inside `_find_placeholder`: only
`TITLE`, `CENTER_TITLE`, `SUBTITLE`, `BODY` are resolvable by type. -/
def findTypeMap : PlaceholderType → Option PPPlaceholder
  | .TITLE => some .TITLE
  | .CENTER_TITLE => some .CENTER_TITLE
  | .SUBTITLE => some .SUBTITLE
  | .BODY => some .BODY
  | _ => none

/-- Does the requested `idx` criterion match this placeholder? -/
def idxMatches (idx : Option Int) (shape : Placeholder) : Bool :=
  match idx with
  | some i => shape.placeholder_format.idx == i
  | none => false

/-- Does the requested `name` criterion match this placeholder
(bidirectional case-insensitive substring)? -/
def nameMatches (name : Option String) (shape : Placeholder) : Bool :=
  match name with
  | some n =>
    pyIn (pyLower n) (pyLower shape.name) || pyIn (pyLower shape.name) (pyLower n)
  | none => false

/-- Does the requested `type` criterion match this placeholder? -/
def typeMatches (ph_type : Option PlaceholderType) (shape : Placeholder) : Bool :=
  match ph_type with
  | some t =>
    match findTypeMap t with
    | some native => shape.placeholder_format.type == native
    | none => false
  | none => false

/-- `_find_placeholder` over the slide's placeholder collection: evaluated
per placeholder in native order, `idx` then `name` then `type`, first match
returned.  (The `hasattr(shape, "placeholder_format")` guard of the source
is vacuous here: every element of `slide.placeholders` carries its
`placeholder_format`.) -/
def _find_placeholder (phs : List Placeholder) (name : Option String := none)
    (idx : Option Int := none) (ph_type : Option PlaceholderType := none) :
    Option Placeholder :=
  match phs with
  | [] => none
  | shape :: rest =>
    if idxMatches idx shape then some shape
    else if nameMatches name shape then some shape
    else if typeMatches ph_type shape then some shape
    else _find_placeholder rest name idx ph_type

/-- `_get_all_layouts`: all layouts of all masters, in document order. -/
def _get_all_layouts (prs : Presentation) : List SlideLayout :=
  (prs.slide_masters.map Master.slide_layouts).flatten

/-- The name-search tail of `_find_layout_by_name_or_index`: exact
case-sensitive match, then case-insensitive substring (query in name),
else the fatal `Layout not found` error. -/
def layoutNameSearch (all_layouts : List SlideLayout) (name : String) :
    Except String SlideLayout :=
  match all_layouts.find? (fun layout => layout.name == name) with
  | some layout => .ok layout
  | none =>
    match all_layouts.find?
        (fun layout => pyIn (pyLower name) (pyLower layout.name)) with
    | some layout => .ok layout
    | none => .error ("Layout not found: " ++ name)

/-- The alias-table block of `_find_layout_by_name_or_index`: `some layout`
exactly when the alias dict is nonempty, has the name as an exact key, and
the stored index is in range; in every other case the code falls through. -/
def aliasLookup (all_layouts : List SlideLayout) (name : String)
    (meta : Option TemplateMeta) : Option SlideLayout :=
  match meta with
  | none => none
  | some m =>
    match m.custom_config with
    | none => none
    | some cc =>
      if cc.layout_aliases.isEmpty then none
      else
        match pyGet cc.layout_aliases name with
        | none => none
        | some alias_index =>
          if h : 0 ≤ alias_index ∧ alias_index < (all_layouts.length : Int) then
            some (all_layouts.get ⟨alias_index.toNat, by omega⟩)
          else none

/-- `_find_layout_by_name_or_index`. -/
def _find_layout_by_name_or_index (prs : Presentation)
    (name : Option String := none) (index : Option Int := none)
    (meta : Option TemplateMeta := none) : Except String SlideLayout :=
  let all_layouts := _get_all_layouts prs
  match index with
  | some index =>
    if h : 0 ≤ index ∧ index < (all_layouts.length : Int) then
      .ok (all_layouts.get ⟨index.toNat, by omega⟩)
    else
      .error ("Layout index " ++ toString index ++ " out of range (0-"
        ++ toString ((all_layouts.length : Int) - 1) ++ ")")
  | none =>
    match name with
    | some name =>
      match aliasLookup all_layouts name meta with
      | some layout => .ok layout
      | none => layoutNameSearch all_layouts name
    | none =>
      match all_layouts with
      | layout :: _ => .ok layout
      | [] =>
        match prs.slide_layouts with
        | layout :: _ => .ok layout
        | [] => .error "IndexError: list index out of range"

/-! ## Content insertion functions

Each `_insert_*` function takes the current text-frame (or slide) state and
returns the updated state; Python's in-place mutation of
`text_frame.paragraphs[0]` (first item) versus `add_paragraph()` (subsequent
items) is reproduced by the `i == 0` case split.  A frame with no paragraphs
cannot occur after `clear()` (python-pptx frames always hold at least one
paragraph); that unreachable case is modelled as a no-op for the item. -/

/-- The per-paragraph body of `_insert_text_content`. -/
def textParagraphStep (p : Paragraph) (pc : ParagraphContent) :
    Except String Paragraph := do
  let run ← _apply_text_style { text := pc.text } pc.style
  let p := { p with runs := p.runs ++ [run] }
  let p := if pc.bullet then { p with level := pc.level } else p
  let p :=
    match pc.alignment with
    | some a =>
      if a == "" then p
      else
        match ALIGNMENT_MAP a with
        | some al => { p with alignment := some al }
        | none => p
    | none => p
  .ok p

def insertTextLoop : TextFrame → List ParagraphContent → Nat →
    Except String TextFrame
  | tf, [], _ => .ok tf
  | tf, pc :: rest, i =>
    if i == 0 then
      match tf.paragraphs with
      | [] => insertTextLoop tf rest (i + 1)
      | p :: ps => do
        let p2 ← textParagraphStep p pc
        insertTextLoop ⟨p2 :: ps⟩ rest (i + 1)
    else do
      let p2 ← textParagraphStep freshParagraph pc
      insertTextLoop ⟨tf.paragraphs ++ [p2]⟩ rest (i + 1)

/-- `_insert_text_content`. -/
def _insert_text_content (text_frame : TextFrame) (content : TextContent)
    (clear_existing : Bool := true) : Except String TextFrame :=
  let text_frame := if clear_existing then text_frame.clear else text_frame
  insertTextLoop text_frame content.paragraphs 0

/-- The per-item body of `_insert_bullet_content` (`p.level = 0` is set
before the run; a `ParagraphContent` item re-sets the level afterwards and
uses `item.style or content.style`). -/
def bulletItemStep (p : Paragraph) (item : BulletItem)
    (content_style : Option TextStyle) : Except String Paragraph := do
  let p := { p with level := 0 }
  match item with
  | .str s => do
    let run ← _apply_text_style { text := s } content_style
    .ok { p with runs := p.runs ++ [run] }
  | .para pc => do
    let style := match pc.style with
      | some st => some st
      | none => content_style
    let run ← _apply_text_style { text := pc.text } style
    .ok { p with runs := p.runs ++ [run], level := pc.level }

def bulletLoop (content_style : Option TextStyle) : TextFrame →
    List BulletItem → Nat → Except String TextFrame
  | tf, [], _ => .ok tf
  | tf, item :: rest, i =>
    if i == 0 then
      match tf.paragraphs with
      | [] => bulletLoop content_style tf rest (i + 1)
      | p :: ps => do
        let p2 ← bulletItemStep p item content_style
        bulletLoop content_style ⟨p2 :: ps⟩ rest (i + 1)
    else do
      let p2 ← bulletItemStep freshParagraph item content_style
      bulletLoop content_style ⟨tf.paragraphs ++ [p2]⟩ rest (i + 1)

/-- `_insert_bullet_content`. -/
def _insert_bullet_content (text_frame : TextFrame) (content : BulletContent)
    (clear_existing : Bool := true) : Except String TextFrame :=
  let text_frame := if clear_existing then text_frame.clear else text_frame
  bulletLoop content.style text_frame content.items 0

/-- `_insert_simple_text`. -/
def _insert_simple_text (text_frame : TextFrame) (text : String)
    (clear_existing : Bool := true) : TextFrame :=
  let text_frame := if clear_existing then text_frame.clear else text_frame
  match text_frame.paragraphs with
  | [] => text_frame
  | p :: ps => ⟨{ p with runs := p.runs ++ [{ text := text }] } :: ps⟩

def simpleBulletsLoop : TextFrame → List String → Nat → TextFrame
  | tf, [], _ => tf
  | tf, item :: rest, i =>
    if i == 0 then
      match tf.paragraphs with
      | [] => simpleBulletsLoop tf rest (i + 1)
      | p :: ps =>
        simpleBulletsLoop
          ⟨{ p with level := 0, runs := p.runs ++ [{ text := item }] } :: ps⟩
          rest (i + 1)
    else
      simpleBulletsLoop
        ⟨tf.paragraphs ++
          [{ freshParagraph with level := 0, runs := [{ text := item }] }]⟩
        rest (i + 1)

/-- `_insert_simple_bullets`. -/
def _insert_simple_bullets (text_frame : TextFrame) (items : List String)
    (clear_existing : Bool := true) : TextFrame :=
  let text_frame := if clear_existing then text_frame.clear else text_frame
  simpleBulletsLoop text_frame items 0

/-! ### Table, chart, image insertion -/

/-- Bounds-checked list update running an effectful cell transformer;
out-of-range models the `IndexError` of `table.cell(...)`. -/
def listSetF {α : Type} : List α → Nat → (α → Except String α) →
    Except String (List α)
  | [], _, _ => .error "IndexError: list index out of range"
  | x :: rest, 0, f => do
    let y ← f x
    .ok (y :: rest)
  | x :: rest, Nat.succ m, f => do
    let r ← listSetF rest m f
    .ok (x :: r)

def tableSetCell (cells : List (List TableCellState)) (r c : Nat)
    (f : TableCellState → Except String TableCellState) :
    Except String (List (List TableCellState)) :=
  listSetF cells r (fun row => listSetF row c f)

/-- The header-row loop of `_insert_table`. -/
def tableHeaderLoop (style : Option TableStyle) :
    List (List TableCellState) → List String → Nat →
    Except String (List (List TableCellState))
  | cells, [], _ => .ok cells
  | cells, header :: rest, col_idx => do
    let cells ← tableSetCell cells 0 col_idx (fun cell => do
      let cell := { cell with text := header }
      match style with
      | some st =>
        match st.header_bg_color with
        | some bg =>
          if bg == "" then .ok cell
          else do
            let rgb ← _parse_rgb_color bg
            .ok { cell with fill := some rgb }
        | none => .ok cell
      | none => .ok cell)
    tableHeaderLoop style cells rest (col_idx + 1)

/-- One data row of `_insert_table`. -/
def tableRowLoop (r : Nat) : List (List TableCellState) → List TableEntry →
    Nat → Except String (List (List TableCellState))
  | cells, [], _ => .ok cells
  | cells, entry :: rest, col_idx => do
    let cells ← tableSetCell cells r col_idx (fun cell =>
      match entry with
      | .str s => .ok { cell with text := s }
      | .cell c => .ok { cell with text := c.text })
    tableRowLoop r cells rest (col_idx + 1)

/-- The data-rows loop of `_insert_table`. -/
def tableRowsLoop (row_offset : Nat) : List (List TableCellState) →
    List (List TableEntry) → Nat → Except String (List (List TableCellState))
  | cells, [], _ => .ok cells
  | cells, row :: rest, row_idx => do
    let cells ← tableRowLoop (row_idx + row_offset) cells row 0
    tableRowsLoop row_offset cells rest (row_idx + 1)

/-- `_insert_table`: the `content.headers` truthiness check treats an empty
header list like `None`. -/
def _insert_table (slide : Slide) (placeholder : Placeholder)
    (content : TableContent) : Except String Slide := do
  let headersTruthy :=
    match content.headers with
    | some hs => !hs.isEmpty
    | none => false
  let rows_count := content.rows.length + (if headersTruthy then 1 else 0)
  let cols_count :=
    match content.rows with
    | r0 :: _ => r0.length
    | [] => (content.headers.getD []).length
  let cells : List (List TableCellState) :=
    List.replicate rows_count (List.replicate cols_count {})
  let (cells, row_offset) ←
    if headersTruthy then do
      let cells ← tableHeaderLoop content.style cells (content.headers.getD []) 0
      pure (cells, 1)
    else
      pure (cells, 0)
  let cells ← tableRowsLoop row_offset cells content.rows 0
  .ok { slide with shapes := slide.shapes ++
    [.table { rows_count := rows_count, cols_count := cols_count,
              left := placeholder.left, top := placeholder.top,
              width := placeholder.width, height := placeholder.height,
              cells := cells }] }

/-- `_insert_chart` (chart title is set only when truthy). -/
def _insert_chart (slide : Slide) (placeholder : Placeholder)
    (content : ChartContent) : Slide :=
  let chart_type := CHART_TYPE_MAP content.chart_type
  let title :=
    match content.title with
    | some t => if t == "" then none else some t
    | none => none
  { slide with shapes := slide.shapes ++
    [.chart { chart_type := chart_type,
              left := placeholder.left, top := placeholder.top,
              width := placeholder.width, height := placeholder.height,
              categories := content.categories,
              series := content.series.map (fun s => (s.name, s.values)),
              title := title,
              has_legend := content.show_legend }] }

/-- `_insert_image`: silently skipped when the source path does not exist
(`fs` models `Path.exists`). -/
def _insert_image (fs : String → Bool) (slide : Slide)
    (placeholder : Placeholder) (content : ImageContent) : Slide :=
  if fs content.source then
    { slide with shapes := slide.shapes ++
      [.picture content.source placeholder.left placeholder.top
        placeholder.width placeholder.height] }
  else slide

/-! ### Free shapes: autoshapes, textboxes, connectors -/

/-- `Inches(x)`: EMU conversion, `int(x * 914400)` (truncation toward
zero, as Python `int`). -/
def Inches (f : PyFloat) : Int := Int.tdiv (f.num * 914400) f.den

/-- `_apply_shape_style`: truthy style fields are applied in order; color
parsing may raise. -/
def _apply_shape_style (shape : AutoShapeState) (style : Option ShapeStyle) :
    Except String AutoShapeState := do
  match style with
  | none => .ok shape
  | some style =>
    let shape ←
      match style.fill_color with
      | some c =>
        if c == "" then pure shape
        else do
          let rgb ← _parse_rgb_color c
          pure { shape with fill := some rgb }
      | none => pure shape
    let shape ←
      match style.line_color with
      | some c =>
        if c == "" then pure shape
        else do
          let rgb ← _parse_rgb_color c
          pure { shape with line_color := some rgb }
      | none => pure shape
    let shape :=
      match style.line_width with
      | some w => if w.isZero then shape else { shape with line_width := some w }
      | none => shape
    let shape :=
      match style.line_dash with
      | some d =>
        if d == "" then shape
        else
          match LINE_DASH_MAP d with
          | some dash => { shape with line_dash := some dash }
          | none => shape
      | none => shape
    .ok shape

/-- `_add_shape`. -/
def _add_shape (slide : Slide) (content : ShapeContent) :
    Except String Slide := do
  let shape_type := SHAPE_TYPE_MAP content.shape_type
  let shape : AutoShapeState :=
    { shape_type := shape_type,
      left := Inches content.left, top := Inches content.top,
      width := Inches content.width, height := Inches content.height }
  let shape ← _apply_shape_style shape content.style
  let shape :=
    match content.rotation with
    | some r => if r.isZero then shape else { shape with rotation := some r }
    | none => shape
  let shape ←
    match content.text with
    | some t =>
      if t == "" then pure shape
      else do
        -- autoshapes always have a text frame (`shape.has_text_frame`)
        let tf := TextFrame.clear shape.text_frame
        let run ← _apply_text_style { text := t } content.text_style
        let tf : TextFrame :=
          match tf.paragraphs with
          | [] => tf
          | p :: ps => ⟨{ p with runs := p.runs ++ [run] } :: ps⟩
        pure { shape with text_frame := tf }
    | none => pure shape
  .ok { slide with shapes := slide.shapes ++ [.auto shape] }

/-- The paragraph loop of `_add_textbox` (no bullet/level handling). -/
def textboxParaLoop : TextFrame → List ParagraphContent → Nat →
    Except String TextFrame
  | tf, [], _ => .ok tf
  | tf, pc :: rest, i => do
    let step : Paragraph → Except String Paragraph := fun p => do
      let run ← _apply_text_style { text := pc.text } pc.style
      let p := { p with runs := p.runs ++ [run] }
      let p :=
        match pc.alignment with
        | some a =>
          if a == "" then p
          else
            match ALIGNMENT_MAP a with
            | some al => { p with alignment := some al }
            | none => p
        | none => p
      .ok p
    if i == 0 then
      match tf.paragraphs with
      | [] => textboxParaLoop tf rest (i + 1)
      | p :: ps => do
        let p2 ← step p
        textboxParaLoop ⟨p2 :: ps⟩ rest (i + 1)
    else do
      let p2 ← step freshParagraph
      textboxParaLoop ⟨tf.paragraphs ++ [p2]⟩ rest (i + 1)

/-- `_add_textbox`. -/
def _add_textbox (slide : Slide) (content : TextBoxContent) :
    Except String Slide := do
  let tf : TextFrame := {}
  let tf ←
    if !content.paragraphs.isEmpty then
      textboxParaLoop tf.clear content.paragraphs 0
    else do
      let tf := tf.clear
      let run ← _apply_text_style { text := content.text } content.style
      pure (match tf.paragraphs with
        | [] => tf
        | p :: ps => (⟨{ p with runs := p.runs ++ [run] } :: ps⟩ : TextFrame))
  let textbox : TextBoxState :=
    { left := Inches content.left, top := Inches content.top,
      width := Inches content.width, height := Inches content.height,
      text_frame := tf }
  let textbox ←
    match content.fill_color with
    | some c =>
      if c == "" then pure textbox
      else do
        let rgb ← _parse_rgb_color c
        pure { textbox with fill := some rgb }
    | none => pure textbox
  let textbox ←
    match content.line_color with
    | some c =>
      if c == "" then pure textbox
      else do
        let rgb ← _parse_rgb_color c
        pure { textbox with line_color := some rgb }
    | none => pure textbox
  .ok { slide with shapes := slide.shapes ++ [.textbox textbox] }

/-- `_add_connector` (always a straight connector). -/
def _add_connector (slide : Slide) (content : ConnectorContent) :
    Except String Slide := do
  let connector : ConnectorState :=
    { start_x := Inches content.start_x, start_y := Inches content.start_y,
      end_x := Inches content.end_x, end_y := Inches content.end_y }
  let connector ←
    match content.line_color with
    | some c =>
      if c == "" then pure connector
      else do
        let rgb ← _parse_rgb_color c
        pure { connector with line_color := some rgb }
    | none => pure connector
  let connector :=
    match content.line_width with
    | some w =>
      if w.isZero then connector else { connector with line_width := some w }
    | none => connector
  .ok { slide with shapes := slide.shapes ++ [.connector connector] }

/-! ## The generator class (`PptxGenerator`) and pipeline -/

/-- Replace the first occurrence of `old` (python-pptx mutates the found
placeholder object in place; `_find_placeholder` always returns the first
matching — hence first structurally equal — element). -/
def replaceFirst {α : Type} [BEq α] : List α → α → α → List α
  | [], _, _ => []
  | x :: xs, old, new =>
    if x == old then new :: xs else x :: replaceFirst xs old new

def Slide.replacePh (slide : Slide) (old new : Placeholder) : Slide :=
  { slide with placeholders := replaceFirst slide.placeholders old new }

/-- Generator state: the opened presentation, the optional template
metadata, and the accumulated warning list (the `template_path` attribute
is pure I/O bookkeeping and not modelled). -/
structure PptxGenerator where
  prs : Presentation
  template_meta : Option TemplateMeta := none
  warnings : List String := []
deriving DecidableEq

/-- `_remove_existing_slides`: iterate over a copy of the slide-id list and
remove each element from the live list. -/
def _remove_existing_slides (prs : Presentation) : Presentation :=
  { prs with
    slides := prs.slides.foldl (fun cur s => cur.erase s) prs.slides }

/-- `PptxGenerator.__init__`: open the template, start with no warnings,
strip pre-existing slides. -/
def PptxGenerator.init (template : Presentation)
    (template_meta : Option TemplateMeta := none) : PptxGenerator :=
  { prs := _remove_existing_slides template,
    template_meta := template_meta,
    warnings := [] }

/-- The `slide_count` property. -/
def PptxGenerator.slide_count (g : PptxGenerator) : Nat :=
  g.prs.slides.length

/-- `_resolve_placeholder`: key parsing.  An `idx:` key whose suffix is not
a parseable integer raises `ValueError` (uncaught); a `type:` key whose
suffix is not a `PlaceholderType` value falls through to name search with
the full key. -/
def _resolve_placeholder (slide : Slide) (key : String) :
    Except String (Option Placeholder) :=
  if pyStartsWith key "idx:" then
    match pyInt (pyDrop key 4) with
    | some idx => .ok (_find_placeholder slide.placeholders none (some idx) none)
    | none => .error (intValueErrorMsg (pyDrop key 4))
  else if pyStartsWith key "type:" then
    match PlaceholderType.ofValue (pyDrop key 5) with
    | some ph_type =>
      .ok (_find_placeholder slide.placeholders none none (some ph_type))
    | none => .ok (_find_placeholder slide.placeholders (some key) none none)
  else
    .ok (_find_placeholder slide.placeholders (some key) none none)

/-- `_insert_content`: resolve the placeholder; failure to resolve, or a
target without a `text_frame` attribute, appends a warning and skips the
entry; otherwise dispatch on the content variant (placement failures
propagate). -/
def _insert_content (fs : String → Bool) (warnings : List String)
    (slide : Slide) (placeholder_key : String) (content : NormContent) :
    Except String (List String × Slide) := do
  let phOpt ← _resolve_placeholder slide placeholder_key
  match phOpt with
  | none =>
    .ok (warnings ++ ["Placeholder not found: " ++ placeholder_key], slide)
  | some placeholder =>
    if !placeholder.has_tf_attr then
      .ok (warnings ++ ["Placeholder has no text frame: " ++ placeholder_key],
        slide)
    else
      match content with
      | .str s =>
        .ok (warnings, slide.replacePh placeholder
          { placeholder with
            text_frame := _insert_simple_text placeholder.text_frame s })
      | .strList xs =>
        .ok (warnings, slide.replacePh placeholder
          { placeholder with
            text_frame := _insert_simple_bullets placeholder.text_frame xs })
      | .text t => do
        let tf ← _insert_text_content placeholder.text_frame t
        .ok (warnings, slide.replacePh placeholder
          { placeholder with text_frame := tf })
      | .bullets b => do
        let tf ← _insert_bullet_content placeholder.text_frame b
        .ok (warnings, slide.replacePh placeholder
          { placeholder with text_frame := tf })
      | .table t => do
        let slide ← _insert_table slide placeholder t
        .ok (warnings, slide)
      | .chart c => .ok (warnings, _insert_chart slide placeholder c)
      | .image i => .ok (warnings, _insert_image fs slide placeholder i)

/-- The content-map loop of `add_slide`. -/
def insertContents (fs : String → Bool) : List String → Slide →
    List (String × NormContent) → Except String (List String × Slide)
  | warnings, slide, [] => .ok (warnings, slide)
  | warnings, slide, (placeholder_key, content) :: rest => do
    let (w2, s2) ← _insert_content fs warnings slide placeholder_key content
    insertContents fs w2 s2 rest

/-- `_add_shape_to_slide`: any failure becomes a warning. -/
def _add_shape_to_slide (warnings : List String) (slide : Slide)
    (content : ShapeItem) : List String × Slide :=
  let attempt : Except String Slide :=
    match content with
    | .shape s => _add_shape slide s
    | .textbox t => _add_textbox slide t
    | .connector c => _add_connector slide c
  match attempt with
  | .ok slide2 => (warnings, slide2)
  | .error e => (warnings ++ ["Failed to add shape: " ++ e], slide)

/-- The shape-list loop of `add_slide`. -/
def addShapesLoop : List String → Slide → List ShapeItem →
    List String × Slide
  | warnings, slide, [] => (warnings, slide)
  | warnings, slide, item :: rest =>
    let (w2, s2) := _add_shape_to_slide warnings slide item
    addShapesLoop w2 s2 rest

/-- `PptxGenerator.add_slide`: resolve the layout (fatal on failure), add a
slide from it, place contents (placement failures fatal, resolution
failures warnings), place free shapes (failures warnings), apply speaker
notes.  The slide is appended to the presentation; since a fatal error
aborts the whole request before any save, appending on success only is
observationally equivalent to python-pptx's add-then-mutate. -/
def PptxGenerator.add_slide (fs : String → Bool) (g : PptxGenerator)
    (definition : SlideDefinition) : Except String PptxGenerator := do
  let layout ← _find_layout_by_name_or_index g.prs definition.layout_name
    definition.layout_index g.template_meta
  let slide := slideFromLayout layout
  let (w1, slide) ← insertContents fs g.warnings slide definition.contents
  let (w2, slide) := addShapesLoop w1 slide definition.shapes
  let slide :=
    match definition.speaker_notes with
    | some notes => { slide with notes := some notes }
    | none => slide
  .ok { g with
    prs := { g.prs with slides := g.prs.slides ++ [slide] },
    warnings := w2 }

def addSlidesLoop (fs : String → Bool) : PptxGenerator →
    List SlideDefinition → Except String PptxGenerator
  | g, [] => .ok g
  | g, d :: rest => do
    let g2 ← PptxGenerator.add_slide fs g d
    addSlidesLoop fs g2 rest

/-- `generate_pptx` (saving to disk is I/O and not modelled; the generated
presentation stands for the saved file). -/
def generate_pptx (fs : String → Bool) (template : Presentation)
    (slides : List SlideDefinition)
    (template_meta : Option TemplateMeta := none) :
    Except String (Presentation × List String) := do
  let generator := PptxGenerator.init template template_meta
  let generator ← addSlidesLoop fs generator slides
  .ok (generator.prs, generator.warnings)

/-! ## Untyped input values and schema construction

`PyValue` models the loosely-typed JSON-like values arriving from the AI
output.  Each pydantic model gets a `fromDict` constructor modelling
validation of a keyword-argument dict: required fields must be present with
an accepted shape, extra keys are ignored (pydantic's default `extra`
policy), numeric coercion `int → float` is applied; `Except.error` models
the raised `ValidationError`. -/

inductive PyValue
  | none
  | bool (b : Bool)
  | int (n : Int)
  | float (f : PyFloat)
  | str (s : String)
  | list (xs : List PyValue)
  | dict (kvs : List (String × PyValue))

/-- Python truthiness. -/
def pyTruthy : PyValue → Bool
  | .none => false
  | .bool b => b
  | .int n => n != 0
  | .float f => !f.isZero
  | .str s => !s.isEmpty
  | .list xs => !xs.isEmpty
  | .dict kvs => !kvs.isEmpty

/-- `a or b`. -/
def pyOr (a b : PyValue) : PyValue := if pyTruthy a then a else b

/-- `d.get(k)` with default `None`. -/
def pyGetD (kvs : List (String × PyValue)) (k : String) : PyValue :=
  (pyGet kvs k).getD .none

/-- A single-quote character, for Python `repr` output. -/
def sq : String := String.singleton (Char.ofNat 39)

/-- Rendering of a float inside `str(...)` output.  Python renders the
shortest decimal form of the binary double; the model renders the exact
fraction, which is only ever inspected as an opaque string. -/
def floatRepr (f : PyFloat) : String :=
  toString f.num ++ "/" ++ toString f.den

mutual
/-- Python `repr(v)` (string escaping inside `repr` is not modelled). -/
def pyRepr : PyValue → String
  | .none => "None"
  | .bool true => "True"
  | .bool false => "False"
  | .int n => toString n
  | .float f => floatRepr f
  | .str s => sq ++ s ++ sq
  | .list xs => "[" ++ pyReprList xs ++ "]"
  | .dict kvs => "\x7b" ++ pyReprDict kvs ++ "\x7d"

def pyReprList : List PyValue → String
  | [] => ""
  | [x] => pyRepr x
  | x :: xs => pyRepr x ++ ", " ++ pyReprList xs

def pyReprDict : List (String × PyValue) → String
  | [] => ""
  | [(k, v)] => sq ++ k ++ sq ++ ": " ++ pyRepr v
  | (k, v) :: kvs => sq ++ k ++ sq ++ ": " ++ pyRepr v ++ ", " ++ pyReprDict kvs
end

/-- Python `str(v)`. -/
def pyStr : PyValue → String
  | .str s => s
  | v => pyRepr v

/-! ### Field validators -/

/-- Required `str` field. -/
def fieldReqStr (kvs : List (String × PyValue)) (f : String) :
    Except String String :=
  match pyGet kvs f with
  | some (.str s) => .ok s
  | some _ => .error (f ++ ": input should be a valid string")
  | none => .error (f ++ ": field required")

/-- `Optional[str]` field defaulting to `None`. -/
def fieldOptStr (kvs : List (String × PyValue)) (f : String) :
    Except String (Option String) :=
  match pyGet kvs f with
  | some (.str s) => .ok (some s)
  | some .none => .ok none
  | some _ => .error (f ++ ": input should be a valid string")
  | none => .ok none

/-- `bool` field with a default (pydantic's lax extra coercions for bool
are not exercised by this code base and not modelled). -/
def fieldBool (kvs : List (String × PyValue)) (f : String) (dflt : Bool) :
    Except String Bool :=
  match pyGet kvs f with
  | some (.bool b) => .ok b
  | some _ => .error (f ++ ": input should be a valid boolean")
  | none => .ok dflt

/-- `Optional[float]` field (`int` values are coerced). -/
def fieldOptFloat (kvs : List (String × PyValue)) (f : String) :
    Except String (Option PyFloat) :=
  match pyGet kvs f with
  | some (.float x) => .ok (some x)
  | some (.int n) => .ok (some (PyFloat.ofInt n))
  | some .none => .ok none
  | some _ => .error (f ++ ": input should be a valid number")
  | none => .ok none

/-- Required `float` field (`int` values are coerced). -/
def fieldReqFloat (kvs : List (String × PyValue)) (f : String) :
    Except String PyFloat :=
  match pyGet kvs f with
  | some (.float x) => .ok x
  | some (.int n) => .ok (PyFloat.ofInt n)
  | some _ => .error (f ++ ": input should be a valid number")
  | none => .error (f ++ ": field required")

/-- A list of strings from a `PyValue` list. -/
def strListFrom (f : String) : List PyValue → Except String (List String)
  | [] => .ok []
  | .str s :: rest => do
    let tail ← strListFrom f rest
    .ok (s :: tail)
  | _ :: _ => .error (f ++ ": input should be a valid string")

/-- Required `list[str]` field. -/
def fieldReqStrList (kvs : List (String × PyValue)) (f : String) :
    Except String (List String) :=
  match pyGet kvs f with
  | some (.list xs) => strListFrom f xs
  | some _ => .error (f ++ ": input should be a valid list")
  | none => .error (f ++ ": field required")

/-- `Optional[list[str]]` field. -/
def fieldOptStrList (kvs : List (String × PyValue)) (f : String) :
    Except String (Option (List String)) :=
  match pyGet kvs f with
  | some (.list xs) => (strListFrom f xs).map some
  | some .none => .ok none
  | some _ => .error (f ++ ": input should be a valid list")
  | none => .ok none

/-- A list of floats (`int` coerced). -/
def floatListFrom (f : String) : List PyValue → Except String (List PyFloat)
  | [] => .ok []
  | .float x :: rest => do
    let tail ← floatListFrom f rest
    .ok (x :: tail)
  | .int n :: rest => do
    let tail ← floatListFrom f rest
    .ok (PyFloat.ofInt n :: tail)
  | _ :: _ => .error (f ++ ": input should be a valid number")

/-! ### Schema constructors -/

/-- `TextStyle(**kvs)`. -/
def TextStyle.fromDict (kvs : List (String × PyValue)) :
    Except String TextStyle := do
  let bold ← fieldBool kvs "bold" false
  let italic ← fieldBool kvs "italic" false
  let underline ← fieldBool kvs "underline" false
  let font_size ← fieldOptFloat kvs "font_size"
  let font_name ← fieldOptStr kvs "font_name"
  let color ← fieldOptStr kvs "color"
  let theme_color ← fieldOptStr kvs "theme_color"
  .ok { bold := bold, italic := italic, underline := underline,
        font_size := font_size, font_name := font_name, color := color,
        theme_color := theme_color }

/-- `Optional[TextStyle]` field. -/
def fieldOptStyle (kvs : List (String × PyValue)) (f : String) :
    Except String (Option TextStyle) :=
  match pyGet kvs f with
  | some (.dict d) => (TextStyle.fromDict d).map some
  | some .none => .ok none
  | some _ => .error (f ++ ": input should be an object")
  | none => .ok none

/-- `ParagraphContent(**kvs)`; `level` is validated `ge=0, le=8`. -/
def ParagraphContent.fromDict (kvs : List (String × PyValue)) :
    Except String ParagraphContent := do
  let text ← fieldReqStr kvs "text"
  let style ← fieldOptStyle kvs "style"
  let bullet ← fieldBool kvs "bullet" false
  let level ←
    match pyGet kvs "level" with
    | some (.int n) =>
      if 0 ≤ n ∧ n ≤ 8 then pure n.toNat
      else Except.error "level: input should be between 0 and 8"
    | some _ => Except.error "level: input should be a valid integer"
    | none => pure 0
  let alignment ← fieldOptStr kvs "alignment"
  .ok { text := text, style := style, bullet := bullet, level := level,
        alignment := alignment }

/-- A `type` field declared as a string enum with a default member: absent
means the default; a present value must be a valid member (any member of
the enum is accepted). -/
def fieldContentType (kvs : List (String × PyValue)) (dflt : ContentType) :
    Except String ContentType :=
  match pyGet kvs "type" with
  | some (.str s) =>
    match ContentType.ofValue s with
    | some t => .ok t
    | none => .error "type: input should be a valid ContentType"
  | some _ => .error "type: input should be a valid ContentType"
  | none => .ok dflt

/-- The `paragraphs` items of a `TextContent`. -/
def paragraphListFrom : List PyValue → Except String (List ParagraphContent)
  | [] => .ok []
  | .dict d :: rest => do
    let p ← ParagraphContent.fromDict d
    let tail ← paragraphListFrom rest
    .ok (p :: tail)
  | _ :: _ => .error "paragraphs: input should be an object"

/-- `TextContent(**kvs)`. -/
def TextContent.fromDict (kvs : List (String × PyValue)) :
    Except String TextContent := do
  let t ← fieldContentType kvs .TEXT
  let paragraphs ←
    match pyGet kvs "paragraphs" with
    | some (.list xs) => paragraphListFrom xs
    | some _ => Except.error "paragraphs: input should be a valid list"
    | none => Except.error "paragraphs: field required"
  .ok { type := t, paragraphs := paragraphs }

/-- The `items` of a `BulletContent` (`str | ParagraphContent`). -/
def bulletItemsFrom : List PyValue → Except String (List BulletItem)
  | [] => .ok []
  | .str s :: rest => do
    let tail ← bulletItemsFrom rest
    .ok (.str s :: tail)
  | .dict d :: rest => do
    let p ← ParagraphContent.fromDict d
    let tail ← bulletItemsFrom rest
    .ok (.para p :: tail)
  | _ :: _ => .error "items: input should be a valid string or object"

/-- `BulletContent(**kvs)`. -/
def BulletContent.fromDict (kvs : List (String × PyValue)) :
    Except String BulletContent := do
  let t ← fieldContentType kvs .BULLETS
  let items ←
    match pyGet kvs "items" with
    | some (.list xs) => bulletItemsFrom xs
    | some _ => Except.error "items: input should be a valid list"
    | none => Except.error "items: field required"
  let style ← fieldOptStyle kvs "style"
  .ok { type := t, items := items, style := style }

/-- `ImageContent(**kvs)`. -/
def ImageContent.fromDict (kvs : List (String × PyValue)) :
    Except String ImageContent := do
  let t ← fieldContentType kvs .IMAGE
  let source ← fieldReqStr kvs "source"
  let alt_text ← fieldOptStr kvs "alt_text"
  .ok { type := t, source := source, alt_text := alt_text }

/-- A span field validated `ge=1` with default `1`. -/
def fieldSpan (kvs : List (String × PyValue)) (f : String) :
    Except String Nat :=
  match pyGet kvs f with
  | some (.int n) =>
    if 1 ≤ n then .ok n.toNat
    else .error (f ++ ": input should be greater than or equal to 1")
  | some _ => .error (f ++ ": input should be a valid integer")
  | none => .ok 1

/-- `TableCell(**kvs)`. -/
def TableCell.fromDict (kvs : List (String × PyValue)) :
    Except String TableCell := do
  let text ← fieldReqStr kvs "text"
  let style ← fieldOptStyle kvs "style"
  let colspan ← fieldSpan kvs "colspan"
  let rowspan ← fieldSpan kvs "rowspan"
  .ok { text := text, style := style, colspan := colspan, rowspan := rowspan }

/-- One table row: `list[str | TableCell]`. -/
def tableRowFrom : List PyValue → Except String (List TableEntry)
  | [] => .ok []
  | .str s :: rest => do
    let tail ← tableRowFrom rest
    .ok (.str s :: tail)
  | .dict d :: rest => do
    let c ← TableCell.fromDict d
    let tail ← tableRowFrom rest
    .ok (.cell c :: tail)
  | _ :: _ => .error "rows: input should be a valid string or object"

def tableRowsFrom : List PyValue → Except String (List (List TableEntry))
  | [] => .ok []
  | .list r :: rest => do
    let row ← tableRowFrom r
    let tail ← tableRowsFrom rest
    .ok (row :: tail)
  | _ :: _ => .error "rows: input should be a valid list"

/-- `TableStyle(**kvs)`. -/
def TableStyle.fromDict (kvs : List (String × PyValue)) :
    Except String TableStyle := do
  let header_bg_color ← fieldOptStr kvs "header_bg_color"
  let header_text_color ← fieldOptStr kvs "header_text_color"
  let alternate_row_color ← fieldOptStr kvs "alternate_row_color"
  let border_color ← fieldOptStr kvs "border_color"
  .ok { header_bg_color := header_bg_color,
        header_text_color := header_text_color,
        alternate_row_color := alternate_row_color,
        border_color := border_color }

/-- `TableContent(**kvs)`. -/
def TableContent.fromDict (kvs : List (String × PyValue)) :
    Except String TableContent := do
  let t ← fieldContentType kvs .TABLE
  let headers ← fieldOptStrList kvs "headers"
  let rows ←
    match pyGet kvs "rows" with
    | some (.list xs) => tableRowsFrom xs
    | some _ => Except.error "rows: input should be a valid list"
    | none => Except.error "rows: field required"
  let style ←
    match pyGet kvs "style" with
    | some (.dict d) => (TableStyle.fromDict d).map some
    | some .none => pure (Option.none)
    | some _ => Except.error "style: input should be an object"
    | none => pure (Option.none)
  .ok { type := t, headers := headers, rows := rows, style := style }

/-- `ChartDataSeries(**kvs)`. -/
def ChartDataSeries.fromDict (kvs : List (String × PyValue)) :
    Except String ChartDataSeries := do
  let name ← fieldReqStr kvs "name"
  let values ←
    match pyGet kvs "values" with
    | some (.list xs) => floatListFrom "values" xs
    | some _ => Except.error "values: input should be a valid list"
    | none => Except.error "values: field required"
  let color ← fieldOptStr kvs "color"
  .ok { name := name, values := values, color := color }

def seriesListFrom : List PyValue → Except String (List ChartDataSeries)
  | [] => .ok []
  | .dict d :: rest => do
    let s ← ChartDataSeries.fromDict d
    let tail ← seriesListFrom rest
    .ok (s :: tail)
  | _ :: _ => .error "series: input should be an object"

/-- `ChartContent(**kvs)`. -/
def ChartContent.fromDict (kvs : List (String × PyValue)) :
    Except String ChartContent := do
  let t ← fieldContentType kvs .CHART
  let chart_type ←
    match pyGet kvs "chart_type" with
    | some (.str s) =>
      match ChartType.ofValue s with
      | some ct => pure ct
      | none => Except.error "chart_type: input should be a valid ChartType"
    | some _ => Except.error "chart_type: input should be a valid ChartType"
    | none => Except.error "chart_type: field required"
  let title ← fieldOptStr kvs "title"
  let categories ← fieldReqStrList kvs "categories"
  let series ←
    match pyGet kvs "series" with
    | some (.list xs) => seriesListFrom xs
    | some _ => Except.error "series: input should be a valid list"
    | none => Except.error "series: field required"
  let show_legend ← fieldBool kvs "show_legend" true
  .ok { type := t, chart_type := chart_type, title := title,
        categories := categories, series := series,
        show_legend := show_legend }

/-- Modelled from the spec: `ShapeStyle(**kvs)` (schema class absent from
the sources). -/
def ShapeStyle.fromDict (kvs : List (String × PyValue)) :
    Except String ShapeStyle := do
  let fill_color ← fieldOptStr kvs "fill_color"
  let line_color ← fieldOptStr kvs "line_color"
  let line_width ← fieldOptFloat kvs "line_width"
  let line_dash ← fieldOptStr kvs "line_dash"
  .ok { fill_color := fill_color, line_color := line_color,
        line_width := line_width, line_dash := line_dash }

/-- Modelled from the spec: `ShapeContent(**kvs)` (schema class absent from
the sources; `shape_type` and the geometry are taken as required since
`_add_shape` reads them unconditionally). -/
def ShapeContent.fromDict (kvs : List (String × PyValue)) :
    Except String ShapeContent := do
  let shape_type ←
    match pyGet kvs "shape_type" with
    | some (.str s) =>
      match ShapeType.ofValue s with
      | some st => pure st
      | none => Except.error "shape_type: input should be a valid ShapeType"
    | some _ => Except.error "shape_type: input should be a valid ShapeType"
    | none => Except.error "shape_type: field required"
  let left ← fieldReqFloat kvs "left"
  let top ← fieldReqFloat kvs "top"
  let width ← fieldReqFloat kvs "width"
  let height ← fieldReqFloat kvs "height"
  let style ←
    match pyGet kvs "style" with
    | some (.dict d) => (ShapeStyle.fromDict d).map some
    | some .none => pure (Option.none)
    | some _ => Except.error "style: input should be an object"
    | none => pure (Option.none)
  let rotation ← fieldOptFloat kvs "rotation"
  let text ← fieldOptStr kvs "text"
  let text_style ← fieldOptStyle kvs "text_style"
  .ok { shape_type := shape_type, left := left, top := top, width := width,
        height := height, style := style, rotation := rotation,
        text := text, text_style := text_style }

/-- Modelled from the spec: `TextBoxContent(**kvs)` (schema class absent
from the sources; geometry required, `text` defaults to the empty string,
`paragraphs` to the empty list). -/
def TextBoxContent.fromDict (kvs : List (String × PyValue)) :
    Except String TextBoxContent := do
  let left ← fieldReqFloat kvs "left"
  let top ← fieldReqFloat kvs "top"
  let width ← fieldReqFloat kvs "width"
  let height ← fieldReqFloat kvs "height"
  let text ←
    match pyGet kvs "text" with
    | some (.str s) => pure s
    | some _ => Except.error "text: input should be a valid string"
    | none => pure ""
  let paragraphs ←
    match pyGet kvs "paragraphs" with
    | some (.list xs) => paragraphListFrom xs
    | some _ => Except.error "paragraphs: input should be a valid list"
    | none => pure []
  let style ← fieldOptStyle kvs "style"
  let fill_color ← fieldOptStr kvs "fill_color"
  let line_color ← fieldOptStr kvs "line_color"
  .ok { left := left, top := top, width := width, height := height,
        text := text, paragraphs := paragraphs, style := style,
        fill_color := fill_color, line_color := line_color }

/-- Modelled from the spec: `ConnectorContent(**kvs)` (schema class absent
from the sources; the endpoint coordinates are required since
`_add_connector` reads them unconditionally). -/
def ConnectorContent.fromDict (kvs : List (String × PyValue)) :
    Except String ConnectorContent := do
  let start_x ← fieldReqFloat kvs "start_x"
  let start_y ← fieldReqFloat kvs "start_y"
  let end_x ← fieldReqFloat kvs "end_x"
  let end_y ← fieldReqFloat kvs "end_y"
  let line_color ← fieldOptStr kvs "line_color"
  let line_width ← fieldOptFloat kvs "line_width"
  .ok { start_x := start_x, start_y := start_y, end_x := end_x,
        end_y := end_y, line_color := line_color, line_width := line_width }

/-! ## Normalization (`_normalize_shapes`, `_normalize_contents`) -/

/-- The per-item body of `_normalize_shapes`: read the discriminator
(default `"shape"`), construct the matching variant inside `try`, skip the
item (`none`) on construction failure or unrecognized discriminator; no
warning is recorded anywhere in this path. -/
def normalizeShapeItem (shape_data : List (String × PyValue)) :
    Option ShapeItem :=
  let shape_type := (pyGet shape_data "type").getD (.str "shape")
  match shape_type with
  | .str s =>
    if s == "shape" then
      (ShapeContent.fromDict shape_data).toOption.map .shape
    else if s == "textbox" then
      (TextBoxContent.fromDict shape_data).toOption.map .textbox
    else if s == "connector" then
      (ConnectorContent.fromDict shape_data).toOption.map .connector
    else none
  | _ => none

/-- `_normalize_shapes`: items are processed in order; a non-dict element
raises before the `try` block (`shape_data.get`), which is modelled as an
error; failed or unrecognized dict items are silently skipped. -/
def _normalize_shapes : List PyValue → Except String (List ShapeItem)
  | [] => .ok []
  | .dict shape_data :: rest => do
    let tail ← _normalize_shapes rest
    match normalizeShapeItem shape_data with
    | some item => .ok (item :: tail)
    | none => .ok tail
  | _ :: _ =>
    .error "AttributeError: object has no attribute get"

/-- The element promotion of `_normalize_contents` for a mixed list: string
elements become plain paragraphs, dict elements are constructed as
`ParagraphContent(**item)` (failures propagate), all other elements are
silently dropped. -/
def promoteParagraphs : List PyValue → Except String (List ParagraphContent)
  | [] => .ok []
  | .str s :: rest => do
    let tail ← promoteParagraphs rest
    .ok ({ text := s } :: tail)
  | .dict d :: rest => do
    let p ← ParagraphContent.fromDict d
    let tail ← promoteParagraphs rest
    .ok (p :: tail)
  | _ :: rest => promoteParagraphs rest

/-- The dict fallback of `_normalize_contents` when the `type` field names
no known variant: a `paragraphs` key means `TextContent(**value)`,
otherwise the whole dict is stringified. -/
def normalizeDictFallback (kvs : List (String × PyValue)) :
    Except String (Option NormContent) :=
  if (pyGet kvs "paragraphs").isSome then
    (TextContent.fromDict kvs).map (fun t => some (.text t))
  else
    .ok (some (.str (pyStr (.dict kvs))))

/-- The per-value body of `_normalize_contents`.  `none` means the key is
silently not added to the normalized dict (a value that is neither string,
list nor dict).  Construction failures are NOT caught here: the source has
no `try` around this dispatch, so they propagate as errors. -/
def normalizeValue (value : PyValue) : Except String (Option NormContent) :=
  match value with
  | .str s => .ok (some (.str s))
  | .list xs =>
    if xs.all (fun v => match v with | .str _ => true | _ => false) then
      .ok (some (.strList (xs.filterMap
        (fun v => match v with | .str s => some s | _ => Option.none))))
    else do
      let paragraphs ← promoteParagraphs xs
      .ok (some (.text { paragraphs := paragraphs }))
  | .dict kvs =>
    match pyGet kvs "type" with
    | some (.str content_type) =>
      if content_type == "text" then
        (TextContent.fromDict kvs).map (fun t => some (.text t))
      else if content_type == "bullets" then
        (BulletContent.fromDict kvs).map (fun b => some (.bullets b))
      else if content_type == "table" then
        (TableContent.fromDict kvs).map (fun t => some (.table t))
      else if content_type == "chart" then
        (ChartContent.fromDict kvs).map (fun c => some (.chart c))
      else if content_type == "image" then
        (ImageContent.fromDict kvs).map (fun i => some (.image i))
      else
        normalizeDictFallback kvs
    | some _ => normalizeDictFallback kvs
    | none => normalizeDictFallback kvs
  | _ => .ok none

/-- `_normalize_contents`: entries processed in insertion order; the first
entry whose conversion raises aborts the whole call (there is no local
`try`/`except` in this function). -/
def _normalize_contents : List (String × PyValue) →
    Except String (List (String × NormContent))
  | [] => .ok []
  | (key, value) :: rest => do
    let n ← normalizeValue value
    let tail ← _normalize_contents rest
    match n with
    | some content => .ok ((key, content) :: tail)
    | none => .ok tail

/-! ## `generate_from_ai_json` -/

/-- Build one `SlideDefinition` from a slide dict of the AI output. -/
def slideDefFromData (slide_data : List (String × PyValue)) :
    Except String SlideDefinition := do
  let layout_name ←
    match pyOr (pyGetD slide_data "layoutName")
        (pyGetD slide_data "layout_name") with
    | .none => pure (Option.none)
    | .str s => pure (some s)
    | _ => Except.error "layout_name: input should be a valid string"
  let layout_index ←
    match pyOr (pyGetD slide_data "layoutIndex")
        (pyGetD slide_data "layout_index") with
    | .none => pure (Option.none)
    | .int n => pure (some n)
    | _ => Except.error "layout_index: input should be a valid integer"
  let contents ←
    match pyGet slide_data "content" with
    | some (.dict kvs) => _normalize_contents kvs
    | some _ => Except.error "AttributeError: object has no attribute items"
    | none => _normalize_contents []
  let shapes ←
    match pyGet slide_data "shapes" with
    | some (.list xs) => _normalize_shapes xs
    | some _ => Except.error "TypeError: object is not iterable"
    | none => _normalize_shapes []
  let speaker_notes ←
    match pyOr (pyGetD slide_data "speakerNotes")
        (pyGetD slide_data "speaker_notes") with
    | .none => pure (Option.none)
    | .str s => pure (some s)
    | _ => Except.error "speaker_notes: input should be a valid string"
  .ok { layout_name := layout_name, layout_index := layout_index,
        contents := contents, shapes := shapes,
        speaker_notes := speaker_notes }

def slideDefsFromData : List PyValue → Except String (List SlideDefinition)
  | [] => .ok []
  | .dict slide_data :: rest => do
    let d ← slideDefFromData slide_data
    let tail ← slideDefsFromData rest
    .ok (d :: tail)
  | _ :: _ => .error "AttributeError: object has no attribute get"

/-- `generate_from_ai_json`: normalize each slide dict of
`ai_output["slides"]` into a `SlideDefinition`, then run `generate_pptx`. -/
def generate_from_ai_json (fs : String → Bool) (template : Presentation)
    (ai_output : List (String × PyValue))
    (template_meta : Option TemplateMeta := none) :
    Except String (Presentation × List String) := do
  let slides_data ←
    match pyGet ai_output "slides" with
    | some (.list xs) => pure xs
    | some _ => Except.error "TypeError: object is not iterable"
    | none => pure []
  let slides ← slideDefsFromData slides_data
  generate_pptx fs template slides template_meta

/-! ## Template analysis (`template_analyzer.py`) -/

/-- `PLACEHOLDER_TYPE_MAP` of the analyzer (tags outside the mapping yield
`None`, which is not an error). -/
def PLACEHOLDER_TYPE_MAP : PPPlaceholder → Option PlaceholderType
  | .TITLE => some .TITLE
  | .CENTER_TITLE => some .CENTER_TITLE
  | .SUBTITLE => some .SUBTITLE
  | .BODY => some .BODY
  | .OBJECT => some .OBJECT
  | .CHART => some .CHART
  | .TABLE => some .TABLE
  | .PICTURE => some .PICTURE
  | .FOOTER => some .FOOTER
  | .DATE => some .DATE
  | .SLIDE_NUMBER => some .SLIDE_NUMBER
  | .other _ => none

/-- `_get_placeholder_type`. -/
def _get_placeholder_type (ph_type : PPPlaceholder) : Option PlaceholderType :=
  PLACEHOLDER_TYPE_MAP ph_type

/-- `_emu_to_inches`: `round(emu / 914400, 2)`, in hundredths of an inch.
The rounding is banker's rounding (round half to even) on the exact
fraction; Python computes it on the binary double, which can differ from
the exact value only at representation artifacts of `emu / 914400`. -/
def _emu_to_inches (emu : Int) : Int :=
  let n := emu * 100
  let d : Int := 914400
  let q := n / d       -- floor division (d > 0)
  let r := n % d
  if 2 * r < d then q
  else if 2 * r > d then q + 1
  else if q % 2 == 0 then q else q + 1

/-- `_extract_placeholder_meta` (the `placeholder.placeholder_format`
truthiness fallback to the enumeration index never fires: native
placeholders always carry a `placeholder_format`). -/
def _extract_placeholder_meta (placeholder : Placeholder) (idx : Nat) :
    PlaceholderMeta :=
  let ph_type := _get_placeholder_type placeholder.placeholder_format.type
  let name :=
    if placeholder.name == "" then "Placeholder " ++ toString idx
    else placeholder.name
  { idx := placeholder.placeholder_format.idx,
    type := ph_type,
    name := name,
    left := _emu_to_inches placeholder.left,
    top := _emu_to_inches placeholder.top,
    width := _emu_to_inches placeholder.width,
    height := _emu_to_inches placeholder.height,
    has_text_frame := placeholder.has_text_frame }

/-- The extraction loop of `_extract_layout_meta`: enumeration index counts
every iterated shape, slide-number/date/footer native tags are skipped. -/
def extractPlaceholders : List Placeholder → Nat → List PlaceholderMeta
  | [], _ => []
  | shape :: rest, idx =>
    if shape.placeholder_format.type == .SLIDE_NUMBER
        || shape.placeholder_format.type == .DATE
        || shape.placeholder_format.type == .FOOTER then
      extractPlaceholders rest (idx + 1)
    else
      _extract_placeholder_meta shape idx :: extractPlaceholders rest (idx + 1)

/-- The `(p.top, p.left)` sort key comparison (lexicographic, ascending). -/
def phKeyLe (a b : PlaceholderMeta) : Bool :=
  a.top < b.top || (a.top == b.top && a.left ≤ b.left)

/-- Insert `x` into `l` after every element `y` with `le y x` (the stable
insertion position). -/
def insertSorted {α : Type} (le : α → α → Bool) (x : α) : List α → List α
  | [] => [x]
  | y :: ys => if le y x then y :: insertSorted le x ys else x :: y :: ys

/-- Stable sort by repeated insertion, processing the input left to right.
For a total preorder this computes the unique stable sorted permutation,
i.e. exactly what Python's stable `list.sort(key=...)` computes. -/
def stableSort {α : Type} (le : α → α → Bool) (l : List α) : List α :=
  l.foldl (fun acc x => insertSorted le x acc) []

/-- `_extract_layout_meta`: extract, then stable-sort by `(top, left)`. -/
def _extract_layout_meta (layout : SlideLayout) (index : Nat) : LayoutMeta :=
  let placeholders := extractPlaceholders layout.placeholders 0
  let placeholders := stableSort phKeyLe placeholders
  { index := index,
    name := if layout.name == "" then "Layout " ++ toString index
            else layout.name,
    placeholders := placeholders }

/-- The nested master/layout loop of `analyze_template`: `global_index`
increments per layout across masters. -/
def analyzeMasterLayouts : List SlideLayout → Nat → List LayoutMeta
  | [], _ => []
  | layout :: rest, global_index =>
    _extract_layout_meta layout global_index ::
      analyzeMasterLayouts rest (global_index + 1)

def analyzeAllMasters : List Master → Nat → List LayoutMeta
  | [], _ => []
  | master :: rest, global_index =>
    analyzeMasterLayouts master.slide_layouts global_index ++
      analyzeAllMasters rest (global_index + master.slide_layouts.length)

/-- `analyze_template`.  File access and the MD5-based template-id
fallback are I/O and not modelled: the caller-visible `template_id` and the
path-derived `stem`/`file name` enter as parameters. -/
def analyze_template (prs : Presentation) (template_id : String)
    (stem : String) (file_name : String)
    (custom_config : Option TemplateCustomConfig := none) : TemplateMeta :=
  { id := template_id,
    name := stem,
    file_name := file_name,
    slide_width := prs.slide_width,
    slide_height := prs.slide_height,
    layouts := analyzeAllMasters prs.slide_masters 0,
    custom_config := custom_config }

/-! ## Concrete instances used by the witness and counterexample theorems -/

/-- C1 counterexample data: `C1phA` matches the request by name only and
precedes `C1phB`, which matches by index only. -/
def C1phA : Placeholder :=
  { name := "Title 1", placeholder_format := { idx := 1, type := .TITLE } }

def C1phB : Placeholder :=
  { name := "Body", placeholder_format := { idx := 5, type := .BODY } }

/-- C2 counterexample data: a single-layout template whose alias table maps
the layout's own name to an out-of-range index. -/
def C2layout : SlideLayout := { name := "foo" }

def C2meta : TemplateMeta :=
  { id := "t", name := "t", file_name := "t.pptx", slide_width := 0,
    slide_height := 0,
    custom_config := some { layout_aliases := [("foo", 5)] } }

def C2prs : Presentation :=
  { slide_masters := [{ slide_layouts := [C2layout] }] }

/-- C4 counterexample data: a one-layout template. -/
def C4template : Presentation :=
  { slide_masters := [{ slide_layouts := [{ name := "L0" }] }] }

/-- AI output with one slide whose shape list holds a textbox that fails
construction (missing geometry) followed by a valid connector. -/
def C4ai : List (String × PyValue) :=
  [("slides", .list [.dict [("shapes", .list
      [.dict [("type", .str "textbox")],
       .dict [("type", .str "connector"), ("start_x", .int 0),
              ("start_y", .int 0), ("end_x", .int 1), ("end_y", .int 1)]])]])]

/-- The two-placeholder slide of the C5 scenario. -/
def C5slide : Slide :=
  { placeholders :=
      [{ name := "Title 1", placeholder_format := { idx := 0, type := .TITLE } },
       { name := "Content Placeholder 2",
         placeholder_format := { idx := 1, type := .BODY } }] }

/-- The `[2, 3]`-masters template of the C6 scenario. -/
def C6prs : Presentation :=
  { slide_masters :=
      [{ slide_layouts := [{ name := "A0" }, { name := "A1" }] },
       { slide_layouts := [{ name := "B0" }, { name := "B1" }, { name := "B2" }] }] }

/-- C7 witness data: a layout declaring, in this order, a low body, a
footer and a high title. -/
def C7high : Placeholder :=
  { name := "High", placeholder_format := { idx := 0, type := .TITLE },
    left := 914400, top := 914400 }

def C7layout : SlideLayout :=
  { name := "L",
    placeholders :=
      [{ name := "Low", placeholder_format := { idx := 1, type := .BODY },
         left := 914400, top := 1828800 },
       { name := "Footer Ph",
         placeholder_format := { idx := 10, type := .FOOTER } },
       C7high] }

/-- The one-layout template of the C10 witness. -/
def C10template : Presentation :=
  { slide_masters := [{ slide_layouts := [{ name := "L" }] }] }

/-- The slide definition of the C10 witness: content key `idx:abc`. -/
def C10defn : SlideDefinition := { contents := [("idx:abc", .str "x")] }

/-! ## Library lemmas about the stable sort -/

theorem mem_insertSorted {α : Type} (le : α → α → Bool) (x : α) (l : List α)
    (z : α) : z ∈ insertSorted le x l ↔ z = x ∨ z ∈ l := by
  induction l with
  | nil => simp [insertSorted]
  | cons y ys ih =>
    simp only [insertSorted]
    split
    · simp only [List.mem_cons, ih]
      tauto
    · simp only [List.mem_cons]

theorem pairwise_insertSorted {α : Type} {le : α → α → Bool}
    (htrans : ∀ a b c, le a b = true → le b c = true → le a c = true)
    (htotal : ∀ a b, le a b = true ∨ le b a = true)
    (x : α) (l : List α) (hl : l.Pairwise (fun a b => le a b = true)) :
    (insertSorted le x l).Pairwise (fun a b => le a b = true) := by
  induction l with
  | nil => simp [insertSorted]
  | cons y ys ih =>
    rcases List.pairwise_cons.mp hl with ⟨hy, hys⟩
    simp only [insertSorted]
    split
    · rename_i hle
      refine List.pairwise_cons.mpr ⟨?_, ih hys⟩
      intro z hz
      rcases (mem_insertSorted le x ys z).mp hz with rfl | hzys
      · exact hle
      · exact hy z hzys
    · rename_i hnle
      have hxy : le x y = true := by
        rcases htotal y x with h | h
        · exact absurd h hnle
        · exact h
      refine List.pairwise_cons.mpr ⟨?_, hl⟩
      intro z hz
      rcases List.mem_cons.mp hz with rfl | hzys
      · exact hxy
      · exact htrans x y z hxy (hy z hzys)

theorem pairwise_foldl_insertSorted {α : Type} {le : α → α → Bool}
    (htrans : ∀ a b c, le a b = true → le b c = true → le a c = true)
    (htotal : ∀ a b, le a b = true ∨ le b a = true) :
    ∀ (l acc : List α), acc.Pairwise (fun a b => le a b = true) →
      (l.foldl (fun acc x => insertSorted le x acc) acc).Pairwise
        (fun a b => le a b = true) := by
  intro l
  induction l with
  | nil => intro acc h; exact h
  | cons x xs ih =>
    intro acc h
    exact ih _ (pairwise_insertSorted htrans htotal x acc h)

theorem pairwise_stableSort {α : Type} {le : α → α → Bool}
    (htrans : ∀ a b c, le a b = true → le b c = true → le a c = true)
    (htotal : ∀ a b, le a b = true ∨ le b a = true) (l : List α) :
    (stableSort le l).Pairwise (fun a b => le a b = true) :=
  pairwise_foldl_insertSorted htrans htotal l [] (by simp)

theorem mem_foldl_insertSorted {α : Type} (le : α → α → Bool) :
    ∀ (l acc : List α) (z : α),
      z ∈ l.foldl (fun acc x => insertSorted le x acc) acc ↔
        z ∈ acc ∨ z ∈ l := by
  intro l
  induction l with
  | nil => intro acc z; simp
  | cons x xs ih =>
    intro acc z
    simp only [List.foldl]
    rw [ih, mem_insertSorted]
    simp only [List.mem_cons]
    tauto

theorem mem_stableSort {α : Type} (le : α → α → Bool) (l : List α) (z : α) :
    z ∈ stableSort le l ↔ z ∈ l := by
  unfold stableSort
  rw [mem_foldl_insertSorted]
  simp

theorem phKeyLe_trans : ∀ a b c, phKeyLe a b = true → phKeyLe b c = true →
    phKeyLe a c = true := by
  intro a b c hab hbc
  simp only [phKeyLe, Bool.or_eq_true, Bool.and_eq_true, decide_eq_true_eq,
    beq_iff_eq] at hab hbc ⊢
  omega

theorem phKeyLe_total : ∀ a b, phKeyLe a b = true ∨ phKeyLe b a = true := by
  intro a b
  simp only [phKeyLe, Bool.or_eq_true, Bool.and_eq_true, decide_eq_true_eq,
    beq_iff_eq]
  omega

/-! ## Lemmas about slide removal -/

theorem foldl_erase_self {α : Type} [DecidableEq α] (l : List α) :
    l.foldl (fun cur s => cur.erase s) l = [] := by
  induction l with
  | nil => rfl
  | cons a t ih =>
    simp only [List.foldl]
    rw [List.erase_cons_head]
    exact ih

/-! ## Lemmas about flattened layout indices -/

theorem analyzeMasterLayouts_length (ls : List SlideLayout) (gi : Nat) :
    (analyzeMasterLayouts ls gi).length = ls.length := by
  induction ls generalizing gi with
  | nil => rfl
  | cons l rest ih => simp [analyzeMasterLayouts, ih]

theorem analyzeMasterLayouts_index : ∀ (ls : List SlideLayout) (gi k : Nat)
    (hk : k < (analyzeMasterLayouts ls gi).length),
    ((analyzeMasterLayouts ls gi).get ⟨k, hk⟩).index = gi + k := by
  intro ls
  induction ls with
  | nil =>
    intro gi k hk
    simp [analyzeMasterLayouts] at hk
  | cons l rest ih =>
    intro gi k hk
    cases k with
    | zero => simp [analyzeMasterLayouts, _extract_layout_meta]
    | succ k2 =>
      have hk2 : k2 < (analyzeMasterLayouts rest (gi + 1)).length := by
        simpa [analyzeMasterLayouts] using hk
      have := ih (gi + 1) k2 hk2
      simp only [analyzeMasterLayouts, List.get_cons_succ]
      omega

theorem analyzeAllMasters_index : ∀ (ms : List Master) (gi k : Nat)
    (hk : k < (analyzeAllMasters ms gi).length),
    ((analyzeAllMasters ms gi).get ⟨k, hk⟩).index = gi + k := by
  intro ms
  induction ms with
  | nil =>
    intro gi k hk
    simp [analyzeAllMasters] at hk
  | cons m rest ih =>
    intro gi k hk
    simp only [analyzeAllMasters] at hk ⊢
    rw [List.get_eq_getElem]
    by_cases h : k < (analyzeMasterLayouts m.slide_layouts gi).length
    · rw [List.getElem_append_left h]
      have := analyzeMasterLayouts_index m.slide_layouts gi k h
      simpa using this
    · have hge : (analyzeMasterLayouts m.slide_layouts gi).length ≤ k :=
        Nat.le_of_not_lt h
      rw [List.getElem_append_right hge]
      have hlt : k - (analyzeMasterLayouts m.slide_layouts gi).length <
          (analyzeAllMasters rest (gi + m.slide_layouts.length)).length := by
        simp only [List.length_append] at hk
        omega
      have := ih (gi + m.slide_layouts.length)
        (k - (analyzeMasterLayouts m.slide_layouts gi).length) hlt
      rw [List.get_eq_getElem] at this
      rw [this]
      have hlen := analyzeMasterLayouts_length m.slide_layouts gi
      omega

/-! ## Claim theorems -/

/-- C9: constructing a `PptxGenerator` removes all of the template's
pre-existing slides while retaining its layouts (masters untouched): right
after construction `slide_count = 0`, whatever slides the template held. -/
theorem C9_constructor_invariant (template : Presentation)
    (meta : Option TemplateMeta) :
    (PptxGenerator.init template meta).slide_count = 0 ∧
    (PptxGenerator.init template meta).prs.slide_masters =
      template.slide_masters := by
  constructor
  · simp [PptxGenerator.init, PptxGenerator.slide_count,
      _remove_existing_slides, foldl_erase_self]
  · rfl

/-- C6: metadata extraction assigns flattened layout indices that are
contiguous, start at 0, and increase across all masters in enumeration
order: the `LayoutMeta` at position `k` of `TemplateMeta.layouts` has
`index = k`. -/
theorem C6_flattened_indices (prs : Presentation)
    (template_id stem file_name : String)
    (custom_config : Option TemplateCustomConfig) (k : Nat)
    (hk : k < (analyze_template prs template_id stem file_name
      custom_config).layouts.length) :
    ((analyze_template prs template_id stem file_name
      custom_config).layouts.get ⟨k, hk⟩).index = k := by
  have := analyzeAllMasters_index prs.slide_masters 0 k
    (by simpa [analyze_template] using hk)
  simpa [analyze_template] using this

/-- C6 witness: with masters of layout counts `[2, 3]`, the second master's
first layout has global index 2. -/
theorem C6_flattened_indices_witness :
    ((analyze_template C6prs "tid" "stem" "file" none).layouts.get
      ⟨2, by decide⟩).index = 2 :=
  C6_flattened_indices C6prs "tid" "stem" "file" none 2 (by decide)

/-! ## Lemmas about placeholder-key resolution and content insertion -/

@[simp] theorem except_bind_ok {ε α β : Type} (a : α) (f : α → Except ε β) :
    (Except.ok a : Except ε α) >>= f = f a := rfl

@[simp] theorem except_bind_error {ε α β : Type} (e : ε)
    (f : α → Except ε β) :
    (Except.error e : Except ε α) >>= f = .error e := rfl

/-- An `idx:` key with an unparseable suffix makes `_resolve_placeholder`
raise `ValueError`. -/
theorem resolve_error_of_bad_idx (slide : Slide) (key : String)
    (h1 : pyStartsWith key "idx:" = true)
    (h2 : pyInt (pyDrop key 4) = none) :
    _resolve_placeholder slide key =
      .error (intValueErrorMsg (pyDrop key 4)) := by
  simp [_resolve_placeholder, h1, h2]

/-- A resolution error propagates out of the content-map loop. -/
theorem insertContents_error_of_resolve (fs : String → Bool)
    (warnings : List String) (slide : Slide) (key : String)
    (content : NormContent) (rest : List (String × NormContent)) (e : String)
    (h : _resolve_placeholder slide key = .error e) :
    insertContents fs warnings slide ((key, content) :: rest) = .error e := by
  simp [insertContents, _insert_content, h, Except.bind]

/-- C5: a content-map key that resolves to no placeholder (such as
`idx:5` on a slide with no native index 5) appends exactly the warning
`Placeholder not found: <key>`, raises nothing, leaves the slide unchanged,
and the loop continues with the remaining content-map entries, so
generation still succeeds whenever the rest does. -/
theorem C5_unresolved_key_warns (fs : String → Bool) (warnings : List String)
    (slide : Slide) (key : String) (content : NormContent)
    (rest : List (String × NormContent))
    (h : _resolve_placeholder slide key = .ok none) :
    insertContents fs warnings slide ((key, content) :: rest) =
      insertContents fs (warnings ++ ["Placeholder not found: " ++ key])
        slide rest := by
  simp [insertContents, _insert_content, h, Except.bind]

/-- C5 witness: key `idx:5` on a slide with native indices `{0, 1}`. -/
theorem C5_unresolved_key_warns_witness :
    insertContents (fun _ => false) [] C5slide
        [("idx:5", .str "x"), ("idx:0", .str "Hello")] =
      insertContents (fun _ => false) ["Placeholder not found: idx:5"]
        C5slide [("idx:0", .str "Hello")] :=
  C5_unresolved_key_warns (fun _ => false) [] C5slide "idx:5" (.str "x")
    [("idx:0", .str "Hello")] (by decide)

/-- C10: an `idx:` key whose suffix is not a parseable decimal integer
makes `_resolve_placeholder` raise a `ValueError` that propagates out of
the content-insertion loop and aborts the whole generation request (once
the slide's layout itself resolves); by contrast a `type:` key with an
unparseable enum suffix falls through to name search with the full key. -/
theorem C10_idx_parse_error_fatal (fs : String → Bool)
    (warnings : List String) (slide : Slide) (key : String)
    (content : NormContent) (rest : List (String × NormContent))
    (template : Presentation) (meta : Option TemplateMeta)
    (defn : SlideDefinition) (moreSlides : List SlideDefinition)
    (layout : SlideLayout)
    (h1 : pyStartsWith key "idx:" = true)
    (h2 : pyInt (pyDrop key 4) = none)
    (hc : defn.contents = (key, content) :: rest)
    (hL : _find_layout_by_name_or_index (PptxGenerator.init template meta).prs
      defn.layout_name defn.layout_index meta = .ok layout) :
    _resolve_placeholder slide key =
      .error (intValueErrorMsg (pyDrop key 4)) ∧
    insertContents fs warnings slide ((key, content) :: rest) =
      .error (intValueErrorMsg (pyDrop key 4)) ∧
    generate_pptx fs template (defn :: moreSlides) meta =
      .error (intValueErrorMsg (pyDrop key 4)) ∧
    (∀ (slide2 : Slide) (key2 : String),
      pyStartsWith key2 "type:" = true →
      pyStartsWith key2 "idx:" = false →
      PlaceholderType.ofValue (pyDrop key2 5) = none →
      _resolve_placeholder slide2 key2 =
        .ok (_find_placeholder slide2.placeholders (some key2) none none)) := by
  refine ⟨resolve_error_of_bad_idx slide key h1 h2,
    insertContents_error_of_resolve fs warnings slide key content rest _
      (resolve_error_of_bad_idx slide key h1 h2), ?_, ?_⟩
  · have hres := resolve_error_of_bad_idx (slideFromLayout layout) key h1 h2
    have hins := insertContents_error_of_resolve fs [] (slideFromLayout layout)
      key content rest _ hres
    have hmeta : (PptxGenerator.init template meta).template_meta = meta := rfl
    have hwarn : (PptxGenerator.init template meta).warnings = [] := rfl
    simp [generate_pptx, addSlidesLoop, PptxGenerator.add_slide, hmeta, hwarn,
      hL, hc, hins]
  · intro slide2 key2 ht hnidx hval
    simp [_resolve_placeholder, ht, hnidx, hval]

/-- C10 witness: generating with content key `idx:abc` aborts the whole
request with the `int` `ValueError`. -/
theorem C10_idx_parse_error_fatal_witness :
    generate_pptx (fun _ => false) C10template [C10defn] none =
      .error (intValueErrorMsg (pyDrop "idx:abc" 4)) :=
  (C10_idx_parse_error_fatal (fun _ => false) [] { } "idx:abc" (.str "x") []
    C10template none C10defn [] { name := "L" }
    (by decide) (by decide) (by decide) (by decide)).2.2.1

/-! ## C8: bare string lists versus `BulletContent` -/

theorem bulletLoop_str_none : ∀ (items : List String) (tf : TextFrame)
    (i : Nat), bulletLoop none tf (items.map BulletItem.str) i =
      .ok (simpleBulletsLoop tf items i) := by
  intro items
  induction items with
  | nil => intro tf i; rfl
  | cons x rest ih =>
    intro tf i
    obtain ⟨ps⟩ := tf
    simp only [List.map, bulletLoop, simpleBulletsLoop]
    split
    · cases ps with
      | nil => exact ih _ _
      | cons p ps2 => exact ih _ _
    · exact ih _ _

/-- C8: placing a bare list of strings (`_insert_simple_bullets`) and
placing `BulletContent(items=...)` with no style (`_insert_bullet_content`)
produce identical text-frame states: same paragraphs with the same texts in
order, each at level 0, the first item reusing the frame's existing first
paragraph. -/
theorem C8_bare_list_equiv_bullet_content (tf : TextFrame)
    (items : List String) :
    _insert_bullet_content tf { items := items.map BulletItem.str } =
      .ok (_insert_simple_bullets tf items) := by
  simpa only [_insert_bullet_content, _insert_simple_bullets] using
    bulletLoop_str_none items tf.clear 0

/-! ## C1: placeholder resolution order -/

/-- C1 counterexample: with `idx = 5`, `name = "Title"`, `type = TITLE` all
provided, a placeholder with native idx 5 exists (`C1phB`), yet
`_find_placeholder` returns `C1phA`: an earlier placeholder's name match
beats a later placeholder's index match, so index does not dominate
independently of positions. -/
theorem C1_counterexample :
    C1phB.placeholder_format.idx = 5 ∧
    C1phA.placeholder_format.idx ≠ 5 ∧
    _find_placeholder [C1phA, C1phB] (some "Title") (some 5) (some .TITLE) =
      some C1phA := by decide

/-- C1 (amended): resolution is evaluated per placeholder in native order
with `idx` checked first on each candidate; hence the placeholder at
position `k` matching the requested `idx` is returned provided no earlier
placeholder matches any provided criterion. -/
theorem C1_amended_idx_wins_over_later (phs : List Placeholder)
    (name : Option String) (i : Int) (ph_type : Option PlaceholderType)
    (k : Nat) (hk : k < phs.length)
    (hidx : idxMatches (some i) (phs.get ⟨k, hk⟩) = true)
    (hbefore : ∀ j (hj : j < k),
      idxMatches (some i) (phs.get ⟨j, Nat.lt_trans hj hk⟩) = false ∧
      nameMatches name (phs.get ⟨j, Nat.lt_trans hj hk⟩) = false ∧
      typeMatches ph_type (phs.get ⟨j, Nat.lt_trans hj hk⟩) = false) :
    _find_placeholder phs name (some i) ph_type = some (phs.get ⟨k, hk⟩) := by
  induction phs generalizing k with
  | nil => exact absurd hk (Nat.not_lt_zero k)
  | cons p rest ih =>
    cases k with
    | zero =>
      simp only [List.get] at hidx ⊢
      simp [_find_placeholder, hidx]
    | succ k2 =>
      have h0 := hbefore 0 (Nat.succ_pos k2)
      simp only [List.get] at h0
      have hk2 : k2 < rest.length := Nat.lt_of_succ_lt_succ hk
      have hidx2 : idxMatches (some i) (rest.get ⟨k2, hk2⟩) = true := by
        simpa only [List.get] using hidx
      have hbefore2 : ∀ j (hj : j < k2),
          idxMatches (some i) (rest.get ⟨j, Nat.lt_trans hj hk2⟩) = false ∧
          nameMatches name (rest.get ⟨j, Nat.lt_trans hj hk2⟩) = false ∧
          typeMatches ph_type (rest.get ⟨j, Nat.lt_trans hj hk2⟩) = false := by
        intro j hj
        have := hbefore (j + 1) (Nat.succ_lt_succ hj)
        simpa only [List.get] using this
      simp only [_find_placeholder, h0.1, h0.2.1, h0.2.2, Bool.false_eq_true,
        if_false, List.get]
      exact ih k2 hk2 hidx2 hbefore2

/-- C1 witness: the idx-matching placeholder is first in native order. -/
theorem C1_amended_idx_wins_over_later_witness :
    _find_placeholder [C1phB] (some "Title") (some 5) (some .TITLE) =
      some ([C1phB].get ⟨0, by decide⟩) :=
  C1_amended_idx_wins_over_later [C1phB] (some "Title") 5 (some .TITLE) 0
    (by decide) (by decide) (fun j hj => absurd hj (Nat.not_lt_zero j))

/-! ## C2: invalid alias index in layout resolution -/

/-- C2 counterexample: the alias table maps `"foo"` to stored index 5, out
of range for the single-layout template; resolution by name `"foo"` does
not raise — it falls back to the exact-name match and succeeds. -/
theorem C2_counterexample :
    pyGet ((C2meta.custom_config.getD {}).layout_aliases) "foo" = some 5 ∧
    ¬ (0 ≤ (5 : Int) ∧ (5 : Int) < ((_get_all_layouts C2prs).length : Int)) ∧
    _find_layout_by_name_or_index C2prs (some "foo") none (some C2meta) =
      .ok C2layout := by decide

/-- C2 (amended): when the requested name is an exact alias key whose
stored index is out of range, the alias entry is silently ignored and
resolution falls back to the exact-name / substring name search (raising
`Layout not found` only if that search also fails). -/
theorem C2_amended_invalid_alias_falls_back (prs : Presentation)
    (name : String) (meta : TemplateMeta) (cc : TemplateCustomConfig)
    (alias_index : Int)
    (hcc : meta.custom_config = some cc)
    (hlk : pyGet cc.layout_aliases name = some alias_index)
    (hbad : ¬ (0 ≤ alias_index ∧
      alias_index < ((_get_all_layouts prs).length : Int))) :
    _find_layout_by_name_or_index prs (some name) none (some meta) =
      layoutNameSearch (_get_all_layouts prs) name := by
  have hne : cc.layout_aliases.isEmpty = false := by
    cases h : cc.layout_aliases with
    | nil => rw [h] at hlk; simp [pyGet] at hlk
    | cons a t => simp [List.isEmpty]
  simp [_find_layout_by_name_or_index, aliasLookup, hcc, hne, hlk, hbad]

/-- C2 witness: the counterexample template, where the fallback finds the
layout by exact name. -/
theorem C2_amended_invalid_alias_falls_back_witness :
    _find_layout_by_name_or_index C2prs (some "foo") none (some C2meta) =
      layoutNameSearch (_get_all_layouts C2prs) "foo" :=
  C2_amended_invalid_alias_falls_back C2prs "foo" C2meta
    { layout_aliases := [("foo", 5)] } 5 (by decide) (by decide) (by decide)

/-! ## C3: content normalization failures are not caught -/

/-- C3 counterexample: a discriminated map (`type: "bullets"`) whose schema
construction fails (missing required `items`) is not caught: the exception
escapes `_normalize_contents`, and the following entry (`"b"`) is lost with
the whole batch. -/
theorem C3_counterexample :
    _normalize_contents
        [("a", .dict [("type", .str "bullets")]), ("b", .str "hello")] =
      .error "items: field required" := by rfl

/-- C3 (amended): a failing variant construction inside
`_normalize_contents` propagates: the whole call fails with that error and
no entry of the batch (before or after the failing one) is returned. -/
theorem C3_amended_failure_propagates (pre : List (String × PyValue))
    (key : String) (value : PyValue) (post : List (String × PyValue))
    (m : List (String × NormContent)) (e : String)
    (hpre : _normalize_contents pre = .ok m)
    (hv : normalizeValue value = .error e) :
    _normalize_contents (pre ++ (key, value) :: post) = .error e := by
  induction pre generalizing m with
  | nil => simp [_normalize_contents, hv]
  | cons kv pre2 ih =>
    obtain ⟨k0, v0⟩ := kv
    simp only [List.cons_append, _normalize_contents] at hpre ⊢
    cases hv0 : normalizeValue v0 with
    | error e0 => rw [hv0] at hpre; simp at hpre
    | ok n0 =>
      rw [hv0] at hpre
      simp only [except_bind_ok] at hpre ⊢
      cases hrec : _normalize_contents pre2 with
      | error e1 => rw [hrec] at hpre; simp at hpre
      | ok m1 =>
        rw [List.append_eq, ih m1 hrec]
        simp

/-- C3 witness for the amended claim: a well-formed entry before and after
a failing `chart` map; the whole batch fails with the chart error. -/
theorem C3_amended_failure_propagates_witness :
    _normalize_contents
        [("x", .str "s"), ("k", .dict [("type", .str "chart")]),
         ("y", .str "t")] = .error "chart_type: field required" :=
  C3_amended_failure_propagates [("x", .str "s")] "k"
    (.dict [("type", .str "chart")]) [("y", .str "t")]
    [("x", NormContent.str "s")] "chart_type: field required"
    (by rfl) (by rfl)

/-! ## C4: shape normalization drops failing items silently -/

/-- C4 counterexample: the failing textbox is dropped and the remaining
connector is still placed, but the generation result carries NO warning at
all — `_normalize_shapes` records nothing for the dropped item. -/
theorem C4_counterexample :
    generate_from_ai_json (fun _ => false) C4template C4ai none =
      .ok ({ slide_masters := [{ slide_layouts := [{ name := "L0" }] }],
             slides := [{ shapes := [.connector
               { start_x := 0, start_y := 0,
                 end_x := 914400, end_y := 914400 }] }] },
           []) := by rfl

/-- C4 (amended): a shape item that fails to construct is dropped silently
— normalization behaves exactly as if the item were absent (remaining
items still processed, and since the result is unchanged, no warning can
ever be recorded for it). -/
theorem C4_amended_silent_drop (pre post : List PyValue)
    (bad : List (String × PyValue))
    (h : normalizeShapeItem bad = none) :
    _normalize_shapes (pre ++ .dict bad :: post) =
      _normalize_shapes (pre ++ post) := by
  induction pre with
  | nil =>
    simp only [List.nil_append, _normalize_shapes, h]
    cases hrec : _normalize_shapes post with
    | error e => simp
    | ok t => simp
  | cons v pre2 ih =>
    cases v with
    | dict d =>
      simp only [List.cons_append, _normalize_shapes]
      rw [List.append_eq, List.append_eq, ih]
    | none => rfl
    | bool b => rfl
    | int n => rfl
    | float f => rfl
    | str s => rfl
    | list xs => rfl

/-- C4 witness for the amended claim: dropping the failing textbox leaves
exactly the normalization of the remaining connector. -/
theorem C4_amended_silent_drop_witness :
    _normalize_shapes
        [.dict [("type", .str "textbox")],
         .dict [("type", .str "connector"), ("start_x", .int 0),
                ("start_y", .int 0), ("end_x", .int 1), ("end_y", .int 1)]] =
      _normalize_shapes
        [.dict [("type", .str "connector"), ("start_x", .int 0),
                ("start_y", .int 0), ("end_x", .int 1), ("end_y", .int 1)]] :=
  C4_amended_silent_drop []
    [.dict [("type", .str "connector"), ("start_x", .int 0),
            ("start_y", .int 0), ("end_x", .int 1), ("end_y", .int 1)]]
    [("type", .str "textbox")] (by rfl)

/-! ## C7: layout placeholder extraction filters and sorts -/

/-- Every extracted placeholder meta comes from a native shape whose type
tag is not slide-number, date or footer. -/
theorem mem_extractPlaceholders : ∀ (phs : List Placeholder) (i : Nat)
    (p : PlaceholderMeta), p ∈ extractPlaceholders phs i →
    ∃ shape, shape ∈ phs ∧
      shape.placeholder_format.type ≠ .SLIDE_NUMBER ∧
      shape.placeholder_format.type ≠ .DATE ∧
      shape.placeholder_format.type ≠ .FOOTER ∧
      ∃ j, p = _extract_placeholder_meta shape j := by
  intro phs
  induction phs with
  | nil =>
    intro i p hp
    simp [extractPlaceholders] at hp
  | cons shape rest ih =>
    intro i p hp
    simp only [extractPlaceholders] at hp
    by_cases hskip : (shape.placeholder_format.type == .SLIDE_NUMBER
        || shape.placeholder_format.type == .DATE
        || shape.placeholder_format.type == .FOOTER) = true
    · rw [if_pos hskip] at hp
      obtain ⟨s, hs, ha, hb, hc, j, hj⟩ := ih (i + 1) p hp
      exact ⟨s, List.mem_cons_of_mem _ hs, ha, hb, hc, j, hj⟩
    · rw [if_neg hskip] at hp
      have hne : shape.placeholder_format.type ≠ .SLIDE_NUMBER ∧
          shape.placeholder_format.type ≠ .DATE ∧
          shape.placeholder_format.type ≠ .FOOTER := by
        simp only [Bool.or_eq_true, beq_iff_eq] at hskip
        tauto
      rcases List.mem_cons.mp hp with rfl | hp2
      · exact ⟨shape, List.mem_cons_self _ _, hne.1, hne.2.1, hne.2.2, i, rfl⟩
      · obtain ⟨s, hs, ha, hb, hc, j, hj⟩ := ih (i + 1) p hp2
        exact ⟨s, List.mem_cons_of_mem _ hs, ha, hb, hc, j, hj⟩

/-- C7: every placeholder of an extracted `LayoutMeta` stems from a native
shape whose type tag is not slide-number/date/footer, and the extracted
list is sorted by `(top, left)` ascending, whatever the native declaration
order was. -/
theorem C7_extraction_filters_and_sorts (layout : SlideLayout) (index : Nat)
    (p : PlaceholderMeta)
    (hp : p ∈ (_extract_layout_meta layout index).placeholders) :
    (∃ shape, shape ∈ layout.placeholders ∧
      shape.placeholder_format.type ≠ .SLIDE_NUMBER ∧
      shape.placeholder_format.type ≠ .DATE ∧
      shape.placeholder_format.type ≠ .FOOTER ∧
      ∃ j, p = _extract_placeholder_meta shape j) ∧
    List.Pairwise (fun a b => phKeyLe a b = true)
      ((_extract_layout_meta layout index).placeholders) := by
  have hps : (_extract_layout_meta layout index).placeholders =
      stableSort phKeyLe (extractPlaceholders layout.placeholders 0) := rfl
  rw [hps] at hp ⊢
  constructor
  · exact mem_extractPlaceholders layout.placeholders 0 p
      ((mem_stableSort phKeyLe _ p).mp hp)
  · exact pairwise_stableSort phKeyLe_trans phKeyLe_total _

/-- C7 witness: the extracted meta of the title declared last is a member
of the extracted list (the footer is gone and the list is sorted). -/
theorem C7_extraction_filters_and_sorts_witness :
    (∃ shape, shape ∈ C7layout.placeholders ∧
      shape.placeholder_format.type ≠ .SLIDE_NUMBER ∧
      shape.placeholder_format.type ≠ .DATE ∧
      shape.placeholder_format.type ≠ .FOOTER ∧
      ∃ j, _extract_placeholder_meta C7high 2 =
        _extract_placeholder_meta shape j) ∧
    List.Pairwise (fun a b => phKeyLe a b = true)
      ((_extract_layout_meta C7layout 3).placeholders) :=
  C7_extraction_filters_and_sorts C7layout 3
    (_extract_placeholder_meta C7high 2) (by decide)

end Pptx
